import Mathlib

/-!
# Qdb: host USB enumeration, host servlet protocol and gadget descriptors

A shallow embedding of

* `src/qdb/server/usb-host/usbdeviceenumerator.cpp` (device scan, snapshot, plug events),
* `src/qdb/server/hostservlet.cpp` (per-client request handling),
* `src/qdbd/usb-gadget/usbgadget.cpp` (FunctionFS descriptor and string blobs),

followed by theorems about these definitions.  Calls into libusb and Qt are
modelled by their results (a value describing what the library answers) and
by effect traces (the sequence of calls and signals a function performs).
-/

namespace Qdb

/-! ## Constants of `src/libqdb/qdbconstants.h` -/

def qdbUsbClassId : Nat := 0xff
def qdbUsbSubclassId : Nat := 0x52
def qdbUsbProtocolId : Nat := 0x1

/-! ## USB host side: data model -/

/-- A `QString`, as its sequence of UTF-16 code units. -/
abbrev QString := List Nat

/-- The `QString` of a string literal of the source (the literals are ASCII, one code unit
per character). -/
def qstr (s : String) : QString := s.toList.map Char.toNat

/-- The literal `"???"` of `getSerialNumber`. -/
def unknownSerial : QString := qstr "???"

/-- Bus number and device address, both `uint8_t` in the source. -/
structure UsbAddress where
  busNumber : Nat
  deviceAddress : Nat
deriving DecidableEq, Repr

/-- Modelled from the spec: `operator<` on `UsbAddress` lives in `usbdevice.h`, which is not
among the sources; the spec orders addresses by bus number, then device address. -/
def UsbAddress.lt (a b : UsbAddress) : Bool :=
  decide (a.busNumber < b.busNumber ∨
    (a.busNumber = b.busNumber ∧ a.deviceAddress < b.deviceAddress))

/-- Interface number and the two endpoint addresses, in the field order of the source's
aggregate initialiser `{interfaceNumber, inAddress, outAddress}`. -/
structure UsbInterfaceInfo where
  number : Nat
  inAddress : Nat
  outAddress : Nat
deriving DecidableEq, Repr

/-- The value-initialised `UsbInterfaceInfo{}`. -/
def UsbInterfaceInfo.empty : UsbInterfaceInfo := ⟨0, 0, 0⟩

/-- A QDB device found on the bus.  `usbDevice` stands for the wrapped `libusb_device *`. -/
structure UsbDevice where
  serial : QString
  address : UsbAddress
  usbDevice : Nat
  interfaceInfo : UsbInterfaceInfo
deriving DecidableEq, Repr

/-! ## What libusb answers -/

/-- Alternate setting 0 of one interface: the fields the enumerator reads. -/
structure LibusbInterface where
  bInterfaceNumber : Nat
  bInterfaceClass : Nat
  bInterfaceSubClass : Nat
  endpointAddresses : List Nat
deriving DecidableEq, Repr

/-- One `libusb_device` together with the answers libusb gives about it. -/
structure LibusbDevice where
  /-- Identity of the `libusb_device *`. -/
  handle : Nat
  busNumber : Nat
  deviceAddress : Nat
  /-- Return code of `libusb_get_active_config_descriptor`. -/
  configRet : Int
  /-- The array `config->interface[0 .. bNumInterfaces)`. -/
  interfaces : List LibusbInterface
  /-- Return code of `libusb_open`. -/
  openRet : Int
  /-- Return code of `libusb_get_device_descriptor`. -/
  descriptorRet : Int
  /-- Return value of `libusb_get_string_descriptor`: byte length, or an error code. -/
  stringLength : Int
  /-- Contents of the 255-byte buffer after `libusb_get_string_descriptor`. -/
  stringBuffer : List Nat
deriving DecidableEq, Repr

/-- The process-wide libusb state seen by one scan. -/
structure LibUsb where
  /-- Whether `libUsbContext()` is non-null. -/
  contextInitialized : Bool
  /-- Return value of `libusb_get_device_list`. -/
  deviceCount : Int
  /-- The device array filled in by `libusb_get_device_list`. -/
  devices : List LibusbDevice
deriving DecidableEq, Repr

/-! ## `usbdeviceenumerator.cpp`: free functions -/

def isQdbInterface (interface : LibusbInterface) : Bool :=
  interface.bInterfaceClass == qdbUsbClassId &&
    interface.bInterfaceSubClass == qdbUsbSubclassId

/-- Reading `endpoint[i]` beyond the descriptor's endpoints is undefined in the source;
the embedding reads address `0` there. -/
def findQdbInterface (device : LibusbDevice) : Bool × UsbInterfaceInfo :=
  if device.configRet ≠ 0 then (false, UsbInterfaceInfo.empty)
  else
    match device.interfaces.find? isQdbInterface with
    | none => (false, UsbInterfaceInfo.empty)
    | some interface =>
      let inEndpointIndex := 1
      let outEndpointIndex := 0
      let interfaceNumber := interface.bInterfaceNumber
      let inAddress := interface.endpointAddresses.getD inEndpointIndex 0
      let outAddress := interface.endpointAddresses.getD outEndpointIndex 0
      (true, ⟨interfaceNumber, inAddress, outAddress⟩)

def getAddress (device : LibusbDevice) : UsbAddress :=
  ⟨device.busNumber, device.deviceAddress⟩

/-- Code unit `i` of a byte buffer read as an array of `unsigned short` on a little-endian
host: low byte first. -/
def codeUnitLittleEndian (buffer : List Nat) (i : Nat) : Nat :=
  buffer.getD (2 * i) 0 % 256 + 256 * (buffer.getD (2 * i + 1) 0 % 256)

/-- Code unit `i` of a byte buffer with the two bytes swapped: high byte first. -/
def codeUnitBigEndian (buffer : List Nat) (i : Nat) : Nat :=
  256 * (buffer.getD (2 * i) 0 % 256) + buffer.getD (2 * i + 1) 0 % 256

/-- The call `QString::fromUtf16(ptr, count)` of Qt on a little-endian host.  Qt checks the
first code unit for a byte-order mark: a leading `0xFEFF` is consumed and the rest is read in
host order; a leading `0xFFFE` is consumed and the rest is read with swapped bytes; without a
mark all `count` code units are read in host order. -/
def fromUtf16 (buffer : List Nat) (count : Nat) : QString :=
  if count = 0 then []
  else if codeUnitLittleEndian buffer 0 = 0xFEFF then
    ((List.range count).drop 1).map (codeUnitLittleEndian buffer)
  else if codeUnitLittleEndian buffer 0 = 0xFFFE then
    ((List.range count).drop 1).map (codeUnitBigEndian buffer)
  else (List.range count).map (codeUnitLittleEndian buffer)

/-- The function `getSerialNumber`.  Its `Q_ASSERT(length % 2 == 0)` is compiled out in a
release build, which the embedding follows: the division `length / 2` is defined for every
positive `length`. -/
def getSerialNumber (device : LibusbDevice) : QString :=
  let serial := unknownSerial
  if device.descriptorRet ≠ 0 then serial
  else
    let length := device.stringLength
    if length ≤ 0 then serial
    else fromUtf16 device.stringBuffer (length / 2).toNat

def lessByAddress (lhs rhs : UsbDevice) : Bool :=
  lhs.address.lt rhs.address

def makeUsbDeviceIfQdbDevice (device : LibusbDevice) : Option UsbDevice :=
  let interfaceResult := findQdbInterface device
  if !interfaceResult.1 then none
  else if device.openRet ≠ 0 then none
  else
    let address := getAddress device
    let serial := getSerialNumber device
    some ⟨serial, address, device.handle, interfaceResult.2⟩

/-- Insertion of one element into a list ordered by `less`. -/
def insertOrdered {α : Type} (less : α → α → Bool) (x : α) : List α → List α
  | [] => [x]
  | y :: ys => if less x y then x :: y :: ys else y :: insertOrdered less x ys

/-- The call `std::sort(first, last, less)`.  The standard fixes the result up to the order
of elements that are equivalent under `less`; this embedding sorts by insertion. -/
def stdSort {α : Type} (less : α → α → Bool) : List α → List α
  | [] => []
  | x :: xs => insertOrdered less x (stdSort less xs)

/-- The call `std::set_difference(first1, last1, first2, last2, out, less)`: the merge loop
of the standard algorithm, returning what is written to `out`. -/
def setDifference {α : Type} (less : α → α → Bool) : List α → List α → List α
  | [], _ => []
  | x :: xs, [] => x :: xs
  | x :: xs, y :: ys =>
    if less x y then x :: setDifference less xs (y :: ys)
    else if less y x then setDifference less (x :: xs) ys
    else setDifference less xs ys

/-- The loop of `makeUsbDevices` over `devices[0 .. deviceCount)`. -/
def collectQdbDevices (devices : List LibusbDevice) : List UsbDevice :=
  devices.filterMap makeUsbDeviceIfQdbDevice

def makeUsbDevices (usb : LibUsb) : List UsbDevice :=
  if !usb.contextInitialized then []
  else if usb.deviceCount < 0 then []
  else
    let qdbDevices := collectQdbDevices (usb.devices.take usb.deviceCount.toNat)
    stdSort lessByAddress qdbDevices

/-! ## `UsbDeviceEnumerator` -/

/-- The signals of `UsbDeviceEnumerator`. -/
inductive EnumeratorSignal where
  | devicePluggedIn (device : UsbDevice)
  | deviceUnplugged (address : UsbAddress)
deriving DecidableEq, Repr

/-- The fields of `UsbDeviceEnumerator`: whether `m_pollTimer` is active, how many times
`QTimer::timeout` is connected to `pollQdbDevices`, and `m_qdbDevices`. -/
structure UsbDeviceEnumerator where
  pollTimerActive : Bool
  timeoutConnections : Nat
  qdbDevices : List UsbDevice
deriving DecidableEq, Repr

/-- The constructor: an idle timer and an empty snapshot. -/
def UsbDeviceEnumerator.new : UsbDeviceEnumerator := ⟨false, 0, []⟩

/-- One call of `pollQdbDevices`; returns the signals emitted, in order, and the new state. -/
def UsbDeviceEnumerator.pollQdbDevices (self : UsbDeviceEnumerator) (usb : LibUsb) :
    List EnumeratorSignal × UsbDeviceEnumerator :=
  let devices := makeUsbDevices usb
  let emitted :=
    if self.pollTimerActive then
      let insertedDevices := setDifference lessByAddress devices self.qdbDevices
      let removedDevices := setDifference lessByAddress self.qdbDevices devices
      insertedDevices.map EnumeratorSignal.devicePluggedIn ++
        removedDevices.map (fun device => EnumeratorSignal.deviceUnplugged device.address)
    else []
  (emitted, { self with qdbDevices := devices })

/-- The call `listUsbDevices`: signals emitted, returned vector, new state. -/
def UsbDeviceEnumerator.listUsbDevices (self : UsbDeviceEnumerator) (usb : LibUsb) :
    List EnumeratorSignal × List UsbDevice × UsbDeviceEnumerator :=
  let r := self.pollQdbDevices usb
  (r.1, r.2.qdbDevices, r.2)

/-- The call `startMonitoring`: connect the timer, start it (from then on
`m_pollTimer.isActive()` holds), then poll once. -/
def UsbDeviceEnumerator.startMonitoring (self : UsbDeviceEnumerator) (usb : LibUsb) :
    List EnumeratorSignal × UsbDeviceEnumerator :=
  let connected := { self with timeoutConnections := self.timeoutConnections + 1 }
  let started := { connected with pollTimerActive := true }
  started.pollQdbDevices usb

def UsbDeviceEnumerator.stopMonitoring (self : UsbDeviceEnumerator) : UsbDeviceEnumerator :=
  { self with pollTimerActive := false }

/-! ## Host servlet: JSON values and host messages -/

/-- A JSON value as held by `QJsonValue`. -/
inductive QJsonValue where
  | undefined
  | null
  | bool (b : Bool)
  | number (n : Int)
  | string (s : QString)
  | array (items : List QJsonValue)
  | object (members : List (QString × QJsonValue))

/-- A `QJsonObject`: its members, at most one per key. -/
abbrev QJsonObject := List (QString × QJsonValue)

/-- The read access `object[key]`: the member, or `undefined` when the key is absent. -/
def QJsonObject.value (o : QJsonObject) (key : QString) : QJsonValue :=
  match o.find? (fun m => m.1 == key) with
  | some m => m.2
  | none => QJsonValue.undefined

/-- The assignment `object[key] = value`: replaces the member with that key, or adds one. -/
def QJsonObject.insert (o : QJsonObject) (key : QString) (v : QJsonValue) : QJsonObject :=
  if o.any (fun m => m.1 == key) then o.map (fun m => if m.1 == key then (key, v) else m)
  else o ++ [(key, v)]

/-- The result of `QJsonDocument::fromJson` on one request line: a null document when the
line is not parseable JSON, else the top-level array or object. -/
inductive QJsonDocument where
  | null
  | array (items : List QJsonValue)
  | object (o : QJsonObject)

/-- The call `document.object()`: the empty object unless the document holds an object. -/
def QJsonDocument.toObject : QJsonDocument → QJsonObject
  | QJsonDocument.object o => o
  | _ => []

/-- Modelled from the spec: the enumeration `RequestType` of `hostmessages.h`, which is not
among the sources; the spec recognises `devices`, `watch-devices` and `stop-server`. -/
inductive RequestType where
  | Unknown
  | Devices
  | WatchDevices
  | StopServer
deriving DecidableEq, Repr

/-- Modelled from the spec: the enumeration `ResponseType` of `hostmessages.h`, which is not
among the sources; one constructor per response schema of the spec. -/
inductive ResponseType where
  | Devices
  | NewDevice
  | DisconnectedDevice
  | Stopping
  | UnsupportedVersion
  | InvalidRequest
deriving DecidableEq, Repr

/-- Modelled from the spec: `requestType` of `hostmessages.cpp`, which is not among the
sources; it reads the `type` member, and anything but the three recognised names
(a missing member included) is `Unknown`. -/
def requestType (request : QJsonObject) : RequestType :=
  match request.value (qstr "type") with
  | QJsonValue.string s =>
    if s == qstr "devices" then RequestType.Devices
    else if s == qstr "watch-devices" then RequestType.WatchDevices
    else if s == qstr "stop-server" then RequestType.StopServer
    else RequestType.Unknown
  | _ => RequestType.Unknown

/-- Modelled from the spec: `checkHostMessageVersion` of `hostmessages.cpp`, which is not among
the sources; the `version` member is compared against `qdbHostMessageVersion`, itself a
constant of the missing header and therefore a parameter here. -/
def checkHostMessageVersion (qdbHostMessageVersion : Int) (request : QJsonObject) : Bool :=
  match request.value (qstr "version") with
  | QJsonValue.number n => n == qdbHostMessageVersion
  | _ => false

/-- Modelled from the spec: the `type` text of each response, from the response schemas. -/
def responseTypeString : ResponseType → QString
  | ResponseType.Devices => qstr "devices"
  | ResponseType.NewDevice => qstr "new-device"
  | ResponseType.DisconnectedDevice => qstr "disconnected-device"
  | ResponseType.Stopping => qstr "stopping"
  | ResponseType.UnsupportedVersion => qstr "unsupported-version"
  | ResponseType.InvalidRequest => qstr "invalid-request"

/-- Modelled from the spec: `initializeResponse` of `hostmessages.cpp`, which is not among the
sources; every response schema of the spec is an object with a `type` member. -/
def initializeResponse (type : ResponseType) : QJsonObject :=
  [(qstr "type", QJsonValue.string (responseTypeString type))]

/-- The record `DeviceInformation` published by the Device Manager. -/
structure DeviceInformation where
  serial : QString
  hostMac : QString
  ipAddress : QString
deriving DecidableEq, Repr

/-! ## `hostservlet.cpp` -/

def deviceInformationToJsonObject (deviceInfo : DeviceInformation) : QJsonObject :=
  let info : QJsonObject := []
  let info := info.insert (qstr "serial") (QJsonValue.string deviceInfo.serial)
  let info := info.insert (qstr "hostMac") (QJsonValue.string deviceInfo.hostMac)
  let info := info.insert (qstr "ipAddress") (QJsonValue.string deviceInfo.ipAddress)
  info

/-- What a servlet does to the outside, in program order.  `socketWrite r` is the call
`m_socket->write(serialiseResponse(r))`. -/
inductive ServletEffect where
  | socketWrite (response : QJsonObject)
  | socketWaitForBytesWritten
  | socketDisconnectFromServer
  | connectNewDeviceInfo
  | connectDisconnectedDevice
  | emitServerStopRequested

/-- The state of a `HostServlet` that its slots read or change: its id, the current answer
of `m_socket && m_socket->isWritable()`, and how many times each Device Manager signal is
connected to its slot (`QObject::connect` adds a connection on every call). -/
structure HostServlet where
  id : Nat
  socketWritable : Bool
  newDeviceInfoConnections : Nat
  disconnectedDeviceConnections : Nat
deriving DecidableEq, Repr

def HostServlet.close : List ServletEffect :=
  [ServletEffect.socketWaitForBytesWritten, ServletEffect.socketDisconnectFromServer]

/-- The slot `replyDevices`, given what `m_deviceManager.listDevices()` returns. -/
def HostServlet.replyDevices (self : HostServlet) (deviceInfos : List DeviceInformation) :
    List ServletEffect :=
  let infoArray := deviceInfos.map (fun d => QJsonValue.object (deviceInformationToJsonObject d))
  let response := initializeResponse ResponseType.Devices
  let response := response.insert (qstr "devices") (QJsonValue.array infoArray)
  if !self.socketWritable then []
  else ServletEffect.socketWrite response :: HostServlet.close

def HostServlet.replyNewDevice (self : HostServlet) (deviceInfo : DeviceInformation) :
    List ServletEffect :=
  let response := initializeResponse ResponseType.NewDevice
  let response := response.insert (qstr "device")
    (QJsonValue.object (deviceInformationToJsonObject deviceInfo))
  if !self.socketWritable then []
  else [ServletEffect.socketWrite response]

def HostServlet.replyDisconnectedDevice (self : HostServlet) (serial : QString) :
    List ServletEffect :=
  let response := initializeResponse ResponseType.DisconnectedDevice
  let response := response.insert (qstr "serial") (QJsonValue.string serial)
  if !self.socketWritable then []
  else [ServletEffect.socketWrite response]

/-- The slot `startWatchingDevices`: two `connect` calls, then one `replyNewDevice` per
device of `m_deviceManager.listDevices()`. -/
def HostServlet.startWatchingDevices (self : HostServlet)
    (deviceInfos : List DeviceInformation) : List ServletEffect × HostServlet :=
  let connected := { self with
    newDeviceInfoConnections := self.newDeviceInfoConnections + 1
    disconnectedDeviceConnections := self.disconnectedDeviceConnections + 1 }
  ([ServletEffect.connectNewDeviceInfo, ServletEffect.connectDisconnectedDevice] ++
    (deviceInfos.map connected.replyNewDevice).flatten, connected)

def HostServlet.stopServer (self : HostServlet) : List ServletEffect :=
  let response := initializeResponse ResponseType.Stopping
  (if !self.socketWritable then [] else [ServletEffect.socketWrite response]) ++
    [ServletEffect.emitServerStopRequested]

/-- The slot `handleRequest`.  `request` is `QJsonDocument::fromJson` of the line read from
the socket, `deviceInfos` is what `m_deviceManager.listDevices()` returns at that moment. -/
def HostServlet.handleRequest (qdbHostMessageVersion : Int) (self : HostServlet)
    (request : QJsonDocument) (deviceInfos : List DeviceInformation) :
    List ServletEffect × HostServlet :=
  let type := requestType request.toObject
  if !checkHostMessageVersion qdbHostMessageVersion request.toObject
      && type != RequestType.StopServer then
    let response := initializeResponse ResponseType.UnsupportedVersion
    let response := response.insert (qstr "supported-version")
      (QJsonValue.number qdbHostMessageVersion)
    (ServletEffect.socketWrite response :: HostServlet.close, self)
  else
    match type with
    | RequestType.Devices => (self.replyDevices deviceInfos, self)
    | RequestType.WatchDevices => self.startWatchingDevices deviceInfos
    | RequestType.StopServer => (self.stopServer, self)
    | RequestType.Unknown =>
      let response := initializeResponse ResponseType.InvalidRequest
      (ServletEffect.socketWrite response :: HostServlet.close, self)

/-- The signal `DeviceManager::newDeviceInfo(deviceInfo)` reaching the servlet: the slot
`replyNewDevice` runs once per connection. -/
def HostServlet.onNewDeviceInfo (self : HostServlet) (deviceInfo : DeviceInformation) :
    List ServletEffect :=
  (List.replicate self.newDeviceInfoConnections (self.replyNewDevice deviceInfo)).flatten

/-- The signal `DeviceManager::disconnectedDevice(serial)` reaching the servlet: the slot
`replyDisconnectedDevice` runs once per connection. -/
def HostServlet.onDisconnectedDevice (self : HostServlet) (serial : QString) :
    List ServletEffect :=
  (List.replicate self.disconnectedDeviceConnections (self.replyDisconnectedDevice serial)).flatten

/-- One thing that happens to a servlet: a request line arrives (with the Device Manager's
device list at that moment), or the Device Manager emits one of its two signals. -/
inductive ServletInput where
  | request (document : QJsonDocument) (deviceInfos : List DeviceInformation)
  | newDeviceInfo (deviceInfo : DeviceInformation)
  | disconnectedDevice (serial : QString)

def HostServlet.step (qdbHostMessageVersion : Int) (self : HostServlet) :
    ServletInput → List ServletEffect × HostServlet
  | ServletInput.request document deviceInfos =>
    self.handleRequest qdbHostMessageVersion document deviceInfos
  | ServletInput.newDeviceInfo deviceInfo => (self.onNewDeviceInfo deviceInfo, self)
  | ServletInput.disconnectedDevice serial => (self.onDisconnectedDevice serial, self)

/-- The effects of each input of a sequence, one list per input, and the final state.  The
answer of `isWritable()` is taken to stay what it is throughout the sequence. -/
def HostServlet.run (qdbHostMessageVersion : Int) :
    HostServlet → List ServletInput → List (List ServletEffect) × HostServlet
  | self, [] => ([], self)
  | self, input :: rest =>
    let r := self.step qdbHostMessageVersion input
    let rs := HostServlet.run qdbHostMessageVersion r.2 rest
    (r.1 :: rs.1, rs.2)

/-- The responses written by a list of effects, in order. -/
def writtenResponses : List ServletEffect → List QJsonObject
  | [] => []
  | ServletEffect.socketWrite r :: rest => r :: writtenResponses rest
  | _ :: rest => writtenResponses rest

/-! ## Gadget side: `usbgadget.cpp`, descriptor and string blobs

The constants below are those of the Linux headers `linux/usb/ch9.h` and
`linux/usb/functionfs.h` that the source includes.  A packed structure is modelled by a
record of its fields together with its memory image, a list of bytes. -/

def USB_DT_INTERFACE : Nat := 0x04
def USB_DT_ENDPOINT : Nat := 0x05
def USB_DIR_OUT : Nat := 0
def USB_DIR_IN : Nat := 0x80
def USB_ENDPOINT_XFER_BULK : Nat := 2
def FUNCTIONFS_DESCRIPTORS_MAGIC : Nat := 1
def FUNCTIONFS_STRINGS_MAGIC : Nat := 2

/-- The memory image of `htole16(x)`: two bytes, least significant first. -/
def htole16 (x : Nat) : List Nat := [x % 256, x / 256 % 256]

/-- The memory image of `htole32(x)`: four bytes, least significant first. -/
def htole32 (x : Nat) : List Nat :=
  [x % 256, x / 256 % 256, x / 65536 % 256, x / 16777216 % 256]

/-- The structure `usb_interface_descriptor` of `ch9.h`: nine one-byte fields. -/
structure usb_interface_descriptor where
  bLength : Nat
  bDescriptorType : Nat
  bInterfaceNumber : Nat
  bAlternateSetting : Nat
  bNumEndpoints : Nat
  bInterfaceClass : Nat
  bInterfaceSubClass : Nat
  bInterfaceProtocol : Nat
  iInterface : Nat
deriving DecidableEq, Repr

def usb_interface_descriptor.sizeof : Nat := 9

def usb_interface_descriptor.bytes (d : usb_interface_descriptor) : List Nat :=
  [d.bLength % 256, d.bDescriptorType % 256, d.bInterfaceNumber % 256,
   d.bAlternateSetting % 256, d.bNumEndpoints % 256, d.bInterfaceClass % 256,
   d.bInterfaceSubClass % 256, d.bInterfaceProtocol % 256, d.iInterface % 256]

/-- The structure `usb_endpoint_descriptor_no_audio` of `functionfs.h`; `wMaxPacketSize` is
a `__le16`, held here as its memory image. -/
structure usb_endpoint_descriptor_no_audio where
  bLength : Nat
  bDescriptorType : Nat
  bEndpointAddress : Nat
  bmAttributes : Nat
  wMaxPacketSize : List Nat
  bInterval : Nat
deriving DecidableEq, Repr

def usb_endpoint_descriptor_no_audio.sizeof : Nat := 7

def usb_endpoint_descriptor_no_audio.bytes (d : usb_endpoint_descriptor_no_audio) :
    List Nat :=
  [d.bLength % 256, d.bDescriptorType % 256, d.bEndpointAddress % 256, d.bmAttributes % 256]
    ++ d.wMaxPacketSize ++ [d.bInterval % 256]

def makeInterfaceDescriptor : usb_interface_descriptor :=
  { bLength := usb_interface_descriptor.sizeof
    bDescriptorType := USB_DT_INTERFACE
    bInterfaceNumber := 0
    bAlternateSetting := 0
    bNumEndpoints := 2
    bInterfaceClass := qdbUsbClassId
    bInterfaceSubClass := qdbUsbSubclassId
    bInterfaceProtocol := qdbUsbProtocolId
    iInterface := 1 }

def makeEndpointDescriptor (endpointAddress maxPacketSize : Nat) :
    usb_endpoint_descriptor_no_audio :=
  { bLength := usb_endpoint_descriptor_no_audio.sizeof
    bDescriptorType := USB_DT_ENDPOINT
    bEndpointAddress := endpointAddress
    bmAttributes := USB_ENDPOINT_XFER_BULK
    wMaxPacketSize := htole16 maxPacketSize
    bInterval := 0 }

/-- The anonymous packed structure of three descriptors used for `fs_descs` and
`hs_descs`. -/
structure SpeedDescriptors where
  intf : usb_interface_descriptor
  bulk_source : usb_endpoint_descriptor_no_audio
  bulk_sink : usb_endpoint_descriptor_no_audio
deriving DecidableEq, Repr

def SpeedDescriptors.sizeof : Nat :=
  usb_interface_descriptor.sizeof + usb_endpoint_descriptor_no_audio.sizeof
    + usb_endpoint_descriptor_no_audio.sizeof

def SpeedDescriptors.bytes (d : SpeedDescriptors) : List Nat :=
  d.intf.bytes ++ d.bulk_source.bytes ++ d.bulk_sink.bytes

/-- The structures `usb_functionfs_descs_head` and `usb_functionfs_strings_head`: four
`__le32` fields each, held as their memory images. -/
structure FunctionFsHead where
  magic : List Nat
  length : List Nat
  count1 : List Nat
  count2 : List Nat
deriving DecidableEq, Repr

def FunctionFsHead.sizeof : Nat := 16

def FunctionFsHead.bytes (h : FunctionFsHead) : List Nat :=
  h.magic ++ h.length ++ h.count1 ++ h.count2

/-- The type of the constant `descriptors`. -/
structure Descriptors where
  header : FunctionFsHead
  fs_descs : SpeedDescriptors
  hs_descs : SpeedDescriptors
deriving DecidableEq, Repr

def Descriptors.sizeof : Nat :=
  FunctionFsHead.sizeof + SpeedDescriptors.sizeof + SpeedDescriptors.sizeof

def Descriptors.bytes (d : Descriptors) : List Nat :=
  d.header.bytes ++ d.fs_descs.bytes ++ d.hs_descs.bytes

def descriptors : Descriptors :=
  { header :=
      { magic := htole32 FUNCTIONFS_DESCRIPTORS_MAGIC
        length := htole32 Descriptors.sizeof
        count1 := htole32 3
        count2 := htole32 3 }
    fs_descs :=
      { intf := makeInterfaceDescriptor
        bulk_source := makeEndpointDescriptor (1 ||| USB_DIR_OUT) 64
        bulk_sink := makeEndpointDescriptor (2 ||| USB_DIR_IN) 64 }
    hs_descs :=
      { intf := makeInterfaceDescriptor
        bulk_source := makeEndpointDescriptor (1 ||| USB_DIR_OUT) 512
        bulk_sink := makeEndpointDescriptor (2 ||| USB_DIR_IN) 512 } }

/-- The string literal behind the preprocessor name `STR_INTERFACE`. -/
def STR_INTERFACE : String := "QDB Interface"

/-- The array `char[sizeof(STR_INTERFACE)]` initialised from the literal: its characters
and the terminating NUL. -/
def strInterfaceArray : List Nat := STR_INTERFACE.toList.map Char.toNat ++ [0]

/-- The member `lang0` of the constant `strings`: a `__le16` language code and `str1`. -/
structure Lang0 where
  code : List Nat
  str1 : List Nat
deriving DecidableEq, Repr

def Lang0.sizeof : Nat := 2 + strInterfaceArray.length

def Lang0.bytes (l : Lang0) : List Nat := l.code ++ l.str1

/-- The type of the constant `strings`. -/
structure Strings where
  header : FunctionFsHead
  lang0 : Lang0
deriving DecidableEq, Repr

def Strings.sizeof : Nat := FunctionFsHead.sizeof + Lang0.sizeof

def Strings.bytes (s : Strings) : List Nat := s.header.bytes ++ s.lang0.bytes

def strings : Strings :=
  { header :=
      { magic := htole32 FUNCTIONFS_STRINGS_MAGIC
        length := htole32 Strings.sizeof
        count1 := htole32 1
        count2 := htole32 1 }
    lang0 :=
      { code := htole16 0x0409
        str1 := strInterfaceArray } }

/-- The bytes of the write `m_controlEndpoint.write(&descriptors, sizeof(descriptors))`. -/
def descriptorsBlob : List Nat := descriptors.bytes.take Descriptors.sizeof

/-- The bytes of the write `m_controlEndpoint.write(&strings, sizeof(strings))`. -/
def stringsBlob : List Nat := strings.bytes.take Strings.sizeof

/-! ## Gadget side: the `UsbGadget` facade -/

/-- A `QByteArray`, as its bytes. -/
abbrev QByteArray := List Nat

/-- The two worker threads of the gadget, `m_readThread` and `m_writeThread`. -/
inductive GadgetThread where
  | readThread
  | writeThread
deriving DecidableEq, Repr

/-- The three endpoint files: `m_controlEndpoint` (`ep0`), `m_outEndpoint` (`ep1`) and
`m_inEndpoint` (`ep2`). -/
inductive GadgetEndpoint where
  | controlEndpoint
  | outEndpoint
  | inEndpoint
deriving DecidableEq, Repr

/-- The calls the destructor makes, in program order: `thread->terminate()`,
`thread->wait()` and `endpoint.close()`. -/
inductive GadgetEffect where
  | terminate (thread : GadgetThread)
  | wait (thread : GadgetThread)
  | close (endpoint : GadgetEndpoint)
deriving DecidableEq, Repr

/-- The signal `readyRead` of the facade. -/
inductive GadgetSignal where
  | readyRead
deriving DecidableEq, Repr

/-- The fields of `UsbGadget` that the facade functions read or change: whether
`m_readThread` and `m_writeThread` are non-null, and the queue `m_reads`, head first. -/
structure UsbGadget where
  readThreadStarted : Bool
  writeThreadStarted : Bool
  reads : List QByteArray
deriving DecidableEq, Repr

/-- The constructor: both thread pointers null, empty queue. -/
def UsbGadget.new : UsbGadget := ⟨false, false, []⟩

/-- The function `startReadThread`, as far as the fields above go. -/
def UsbGadget.startReadThread (self : UsbGadget) : UsbGadget :=
  { self with readThreadStarted := true }

/-- The function `startWriteThread`, as far as the fields above go. -/
def UsbGadget.startWriteThread (self : UsbGadget) : UsbGadget :=
  { self with writeThreadStarted := true }

/-- The destructor `~UsbGadget`.  The second `wait` is written `m_readThread->wait()` in the
source; `none` stands for that call through a null `m_readThread`. -/
def UsbGadget.destructor (self : UsbGadget) : Option (List GadgetEffect) :=
  let stopRead :=
    if self.readThreadStarted then
      [GadgetEffect.terminate GadgetThread.readThread, GadgetEffect.wait GadgetThread.readThread]
    else []
  let closeAll :=
    [GadgetEffect.close GadgetEndpoint.inEndpoint, GadgetEffect.close GadgetEndpoint.outEndpoint,
     GadgetEffect.close GadgetEndpoint.controlEndpoint]
  if self.writeThreadStarted then
    if self.readThreadStarted then
      some (stopRead ++
        [GadgetEffect.terminate GadgetThread.writeThread,
         GadgetEffect.wait GadgetThread.readThread] ++ closeAll)
    else none
  else some (stopRead ++ closeAll)

/-- The function `readData(data, maxSize)`: the value returned, the gadget afterwards and the
buffer `data` afterwards.  `std::copy` overwrites the first `read.size()` bytes of the buffer.
`none` stands for a failed `Q_ASSERT(read.size() <= maxSize)`: an abort in a debug build, a
write past the `maxSize` bytes in a release build. -/
def UsbGadget.readData (self : UsbGadget) (data : List Nat) (maxSize : Int) :
    Option (Int × UsbGadget × List Nat) :=
  match self.reads with
  | [] => some (-1, self, data)
  | read :: rest =>
    if (read.length : Int) ≤ maxSize then
      some ((read.length : Int), { self with reads := rest }, read ++ data.drop read.length)
    else none

/-- The slot `dataRead(data)`: enqueue at the tail, then emit `readyRead`. -/
def UsbGadget.dataRead (self : UsbGadget) (data : QByteArray) :
    List GadgetSignal × UsbGadget :=
  ([GadgetSignal.readyRead], { self with reads := self.reads ++ [data] })

/-- The gadget after the slot `dataRead` ran on each chunk of a list, in list order. -/
def UsbGadget.dataReadAll (self : UsbGadget) (chunks : List QByteArray) : UsbGadget :=
  chunks.foldl (fun gadget chunk => (gadget.dataRead chunk).2) self

/-- A consumer that calls `readData` up to `calls` times on the same buffer and collects what
each call delivered (the first bytes of the buffer, as many as the call returned); it stops
at a return of `-1` and at a failed assertion. -/
def UsbGadget.readChunks : Nat → UsbGadget → List Nat → Int → List QByteArray
  | 0, _, _, _ => []
  | calls + 1, self, data, maxSize =>
    match self.readData data maxSize with
    | none => []
    | some (size, after, filled) =>
      if size < 0 then []
      else filled.take size.toNat :: UsbGadget.readChunks calls after filled maxSize

/-! ## Servlet ids -/

/-- The function `newServletId`, given the current value of its static `nextId`: the id
returned and the new value of `nextId`.  The type `ServletId` is declared in `hostservlet.h`,
which is not among the sources; it is taken as an unsigned integer type of `bits` bits, so
that `++nextId` wraps at `2 ^ bits`. -/
def newServletId (bits : Nat) (nextId : Nat) : Nat × Nat :=
  let nextId := (nextId + 1) % 2 ^ bits
  (nextId, nextId)

/-- The value of the static `nextId` after `n` servlets were created; it starts at `0`. -/
def nextIdAfter (bits : Nat) : Nat → Nat
  | 0 => 0
  | n + 1 => (newServletId bits (nextIdAfter bits n)).2

/-- The id that the constructor `HostServlet::HostServlet` gives the `n`-th servlet created in
the process, counting from one: `m_id` is initialised with `newServletId()`. -/
def servletId (bits : Nat) (n : Nat) : Nat :=
  (newServletId bits (nextIdAfter bits (n - 1))).1

/-! ## Sample inputs used to exercise the theorems -/

/-- An interface descriptor of a QDB device: OUT endpoint first, IN endpoint second. -/
def sampleQdbInterface : LibusbInterface :=
  { bInterfaceNumber := 0, bInterfaceClass := 0xff, bInterfaceSubClass := 0x52,
    endpointAddresses := [0x01, 0x82] }

/-- A QDB device at the given bus number and device address for which every libusb call
succeeds; its string descriptor read fills four bytes, the code units `A` and `1`. -/
def sampleLibusbDevice (handle bus address : Nat) : LibusbDevice :=
  { handle := handle, busNumber := bus, deviceAddress := address, configRet := 0,
    interfaces := [sampleQdbInterface], openRet := 0, descriptorRet := 0,
    stringLength := 4, stringBuffer := [65, 0, 49, 0] }

/-- The `UsbDevice` the enumerator builds from `sampleLibusbDevice`. -/
def sampleUsbDevice (handle bus address : Nat) : UsbDevice :=
  { serial := [65, 49], address := ⟨bus, address⟩, usbDevice := handle,
    interfaceInfo := ⟨0, 0x82, 0x01⟩ }

/-- A working libusb listing the given devices. -/
def sampleBus (devices : List LibusbDevice) : LibUsb :=
  { contextInitialized := true, deviceCount := devices.length, devices := devices }

/-- A libusb whose `libusb_get_device_list` fails with `LIBUSB_ERROR_NO_MEM`. -/
def failingBus : LibUsb :=
  { contextInitialized := true, deviceCount := -11, devices := [] }

/-- A list is non-decreasing by address: no later device lies below an earlier one. -/
def NonDecreasing (l : List UsbDevice) : Prop :=
  l.Pairwise (fun a b => lessByAddress b a = false)

/-- A gadget after `open` started both workers, with the given read queue. -/
def sampleOpenGadget (reads : List QByteArray) : UsbGadget :=
  { UsbGadget.new.startReadThread.startWriteThread with reads := reads }

/-- The data model's invariant on one listing: a `UsbAddress` identifies one device at an
instant, so the devices of one `libusb_get_device_list` answer sit at pairwise distinct
addresses (bus number, device address). -/
def DistinctAddresses (usb : LibUsb) : Prop :=
  (usb.devices.map getAddress).Nodup

instance (usb : LibUsb) : Decidable (DistinctAddresses usb) := by
  unfold DistinctAddresses; infer_instance

/-! ## Servlet traces: vocabulary of the theorems -/

/-- A request with a matching version whose type is `watch-devices`: the input on which
`handleRequest` reaches `startWatchingDevices`. -/
def isWatchRequest (qdbHostMessageVersion : Int) : ServletInput → Bool
  | ServletInput.request document _ =>
    checkHostMessageVersion qdbHostMessageVersion document.toObject
      && requestType document.toObject == RequestType.WatchDevices
  | _ => false

/-- How many inputs of a sequence are `watch-devices` requests with a matching version. -/
def watchRequests (qdbHostMessageVersion : Int) (inputs : List ServletInput) : Nat :=
  inputs.countP (isWatchRequest qdbHostMessageVersion)

/-- The parsed request object with the two members `type` and `version`. -/
def sampleRequest (type : String) (version : Int) : QJsonDocument :=
  QJsonDocument.object
    [(qstr "type", QJsonValue.string (qstr type)), (qstr "version", QJsonValue.number version)]

/-- The device of the watch scenario of the spec, serial `A123`. -/
def sampleDeviceInformation : DeviceInformation :=
  { serial := qstr "A123", hostMac := qstr "02:00:00:00:00:01", ipAddress := qstr "10.10.10.2" }

/-! ## Properties of the address order -/

/-- A device list is strictly increasing by address. -/
def StrictlyIncreasing (l : List UsbDevice) : Prop :=
  l.Pairwise (fun a b => lessByAddress a b = true)

instance (l : List UsbDevice) : Decidable (StrictlyIncreasing l) := by
  unfold StrictlyIncreasing; infer_instance

/-- Whether some device of `l` sits at address `a`. -/
def hasAddress (l : List UsbDevice) (a : UsbAddress) : Bool :=
  l.any (fun d => d.address == a)

/-- The devices of `xs` whose address does not occur in `ys`, in the order of `xs`. -/
def notIn (xs ys : List UsbDevice) : List UsbDevice :=
  xs.filter (fun d => !hasAddress ys d.address)

theorem UsbAddress.lt_iff (a b : UsbAddress) :
    a.lt b = true ↔ (a.busNumber < b.busNumber ∨
      (a.busNumber = b.busNumber ∧ a.deviceAddress < b.deviceAddress)) := by
  simp [UsbAddress.lt]

theorem UsbAddress.lt_irrefl (a : UsbAddress) : a.lt a = false := by
  simp [UsbAddress.lt]

theorem UsbAddress.lt_trans {a b c : UsbAddress} (hab : a.lt b = true) (hbc : b.lt c = true) :
    a.lt c = true := by
  rw [UsbAddress.lt_iff] at *
  omega

theorem UsbAddress.eq_of_not_lt {a b : UsbAddress} (hab : a.lt b = false)
    (hba : b.lt a = false) : a = b := by
  have h1 : ¬ (a.lt b = true) := by simp [hab]
  have h2 : ¬ (b.lt a = true) := by simp [hba]
  rw [UsbAddress.lt_iff] at h1 h2
  cases a; cases b
  simp only [UsbAddress.mk.injEq] at *
  omega

theorem UsbAddress.ne_of_lt {a b : UsbAddress} (hab : a.lt b = true) : a ≠ b := by
  intro h
  subst h
  simp [UsbAddress.lt_irrefl] at hab

theorem hasAddress_cons (d : UsbDevice) (l : List UsbDevice) (a : UsbAddress) :
    hasAddress (d :: l) a = (d.address == a || hasAddress l a) := by
  simp [hasAddress]

theorem hasAddress_eq_false_of_lt {l : List UsbDevice} {a : UsbAddress}
    (h : ∀ d ∈ l, a.lt d.address = true) : hasAddress l a = false := by
  induction l with
  | nil => rfl
  | cons d l ih =>
    rw [hasAddress_cons, ih (fun e he => h e (List.mem_cons_of_mem _ he))]
    have hne := UsbAddress.ne_of_lt (h d (List.mem_cons_self _ _))
    simp [Ne.symm hne]

/-- Dropping from `ys` a head that lies below every device of `xs` does not change `notIn`. -/
theorem notIn_cons_right_of_lt {xs ys : List UsbDevice} {y : UsbDevice}
    (h : ∀ d ∈ xs, y.address.lt d.address = true) : notIn xs (y :: ys) = notIn xs ys := by
  unfold notIn
  apply List.filter_congr
  intro d hd
  rw [hasAddress_cons]
  have hne := UsbAddress.ne_of_lt (h d hd)
  simp [hne]

/-- On strictly increasing inputs `std::set_difference` by address returns exactly the
devices of the first range whose address is absent from the second, in order. -/
theorem setDifference_eq_notIn (xs ys : List UsbDevice)
    (hx : StrictlyIncreasing xs) (hy : StrictlyIncreasing ys) :
    setDifference lessByAddress xs ys = notIn xs ys := by
  induction xs, ys using setDifference.induct lessByAddress with
  | case1 ys => simp [setDifference, notIn]
  | case2 x xs => simp [setDifference, notIn, hasAddress]
  | case3 x xs y ys hlt ih =>
    rw [setDifference, if_pos hlt]
    have hx' : StrictlyIncreasing xs := (List.pairwise_cons.mp hx).2
    have hys : ∀ d ∈ y :: ys, x.address.lt d.address = true := by
      intro d hd
      rcases List.mem_cons.mp hd with rfl | hd
      · exact hlt
      · exact UsbAddress.lt_trans hlt ((List.pairwise_cons.mp hy).1 d hd)
    have hno : hasAddress (y :: ys) x.address = false := hasAddress_eq_false_of_lt hys
    rw [ih hx' hy]
    simp [notIn, hno]
  | case4 x xs y ys hnlt hlt ih =>
    rw [setDifference, if_neg hnlt, if_pos hlt]
    have hy' : StrictlyIncreasing ys := (List.pairwise_cons.mp hy).2
    have hxs : ∀ d ∈ x :: xs, y.address.lt d.address = true := by
      intro d hd
      rcases List.mem_cons.mp hd with rfl | hd
      · exact hlt
      · exact UsbAddress.lt_trans hlt ((List.pairwise_cons.mp hx).1 d hd)
    rw [ih hx hy', notIn_cons_right_of_lt hxs]
  | case5 x xs y ys hnlt hngt ih =>
    rw [setDifference, if_neg hnlt, if_neg hngt]
    have hx' : StrictlyIncreasing xs := (List.pairwise_cons.mp hx).2
    have hy' : StrictlyIncreasing ys := (List.pairwise_cons.mp hy).2
    have heq : x.address = y.address :=
      UsbAddress.eq_of_not_lt (by simpa [lessByAddress] using hnlt)
        (by simpa [lessByAddress] using hngt)
    have hxs : ∀ d ∈ xs, y.address.lt d.address = true := by
      intro d hd
      rw [← heq]
      exact (List.pairwise_cons.mp hx).1 d hd
    rw [ih hx' hy', ← notIn_cons_right_of_lt hxs]
    simp [notIn, hasAddress_cons, heq]

theorem notIn_nil_right (xs : List UsbDevice) : notIn xs [] = xs := by
  simp [notIn, hasAddress]

theorem setDifference_nil_right {α : Type} (less : α → α → Bool) (xs : List α) :
    setDifference less xs [] = xs := by
  cases xs <;> simp [setDifference]

theorem setDifference_nil_left {α : Type} (less : α → α → Bool) (ys : List α) :
    setDifference less [] ys = [] := by
  simp [setDifference]

theorem strictlyIncreasing_notIn {xs : List UsbDevice} (ys : List UsbDevice)
    (hx : StrictlyIncreasing xs) : StrictlyIncreasing (notIn xs ys) :=
  List.Pairwise.sublist (List.filter_sublist _) hx

theorem notIn_eq_nil_of_subset {xs ys : List UsbDevice}
    (h : ∀ d ∈ xs, hasAddress ys d.address = true) : notIn xs ys = [] := by
  unfold notIn
  rw [List.filter_eq_nil_iff]
  intro d hd
  simp [h d hd]

theorem hasAddress_self {xs : List UsbDevice} {d : UsbDevice} (hd : d ∈ xs) :
    hasAddress xs d.address = true := by
  unfold hasAddress
  rw [List.any_eq_true]
  exact ⟨d, hd, by simp⟩

/-- A failed enumeration yields the empty vector. -/
theorem makeUsbDevices_of_failure (usb : LibUsb)
    (hfail : usb.contextInitialized = false ∨ usb.deviceCount < 0) :
    makeUsbDevices usb = [] := by
  unfold makeUsbDevices
  rcases hfail with h | h
  · simp [h]
  · simp [h]

/-- What one monitored poll emits and stores, on strictly increasing snapshot and scan. -/
theorem pollQdbDevices_active (self : UsbDeviceEnumerator) (usb : LibUsb)
    (hactive : self.pollTimerActive = true)
    (hold : StrictlyIncreasing self.qdbDevices)
    (hnew : StrictlyIncreasing (makeUsbDevices usb)) :
    self.pollQdbDevices usb =
      ((notIn (makeUsbDevices usb) self.qdbDevices).map EnumeratorSignal.devicePluggedIn ++
        (notIn self.qdbDevices (makeUsbDevices usb)).map
          (fun d => EnumeratorSignal.deviceUnplugged d.address),
       { self with qdbDevices := makeUsbDevices usb }) := by
  simp only [UsbDeviceEnumerator.pollQdbDevices, hactive, if_true]
  rw [setDifference_eq_notIn _ _ hnew hold, setDifference_eq_notIn _ _ hold hnew]

/-! ### Sorting -/

theorem lessByAddress_asymm {a b : UsbDevice} (h : lessByAddress a b = true) :
    lessByAddress b a = false := by
  unfold lessByAddress at *
  cases hba : b.address.lt a.address
  · rfl
  · have := UsbAddress.lt_trans h hba
    simp [UsbAddress.lt_irrefl] at this

theorem lessByAddress_trans {a b c : UsbDevice} (hab : lessByAddress a b = true)
    (hbc : lessByAddress b c = true) : lessByAddress a c = true :=
  UsbAddress.lt_trans hab hbc

theorem mem_insertOrdered {α : Type} (less : α → α → Bool) (x z : α) (l : List α) :
    z ∈ insertOrdered less x l ↔ z = x ∨ z ∈ l := by
  induction l with
  | nil => simp [insertOrdered]
  | cons y ys ih =>
    unfold insertOrdered
    split
    · simp
    · simp only [List.mem_cons, ih]
      tauto

theorem insertOrdered_perm {α : Type} (less : α → α → Bool) (x : α) (l : List α) :
    (insertOrdered less x l).Perm (x :: l) := by
  induction l with
  | nil => simp [insertOrdered]
  | cons y ys ih =>
    unfold insertOrdered
    split
    · exact List.Perm.refl _
    · exact ((List.Perm.cons y ih).trans (List.Perm.swap x y ys))

theorem stdSort_perm {α : Type} (less : α → α → Bool) (l : List α) :
    (stdSort less l).Perm l := by
  induction l with
  | nil => exact List.Perm.refl _
  | cons x xs ih =>
    unfold stdSort
    exact (insertOrdered_perm less x _).trans (List.Perm.cons x ih)

theorem nonDecreasing_insertOrdered (x : UsbDevice) (l : List UsbDevice)
    (h : NonDecreasing l) : NonDecreasing (insertOrdered lessByAddress x l) := by
  induction l with
  | nil => simp [insertOrdered, NonDecreasing]
  | cons y ys ih =>
    have hy := List.pairwise_cons.mp h
    unfold insertOrdered
    split
    · rename_i hlt
      refine List.pairwise_cons.mpr ⟨?_, h⟩
      intro z hz
      rcases List.mem_cons.mp hz with rfl | hz
      · exact lessByAddress_asymm hlt
      · cases hzx : lessByAddress z x
        · rfl
        · have hzy := lessByAddress_trans hzx hlt
          rw [hy.1 z hz] at hzy
          exact absurd hzy (by simp)
    · rename_i hnlt
      refine List.pairwise_cons.mpr ⟨?_, ih hy.2⟩
      intro z hz
      rcases (mem_insertOrdered _ _ _ _).mp hz with rfl | hz
      · simpa using hnlt
      · exact hy.1 z hz

theorem nonDecreasing_stdSort (l : List UsbDevice) :
    NonDecreasing (stdSort lessByAddress l) := by
  induction l with
  | nil => simp [stdSort, NonDecreasing]
  | cons x xs ih =>
    unfold stdSort
    exact nonDecreasing_insertOrdered x _ ih

theorem strictlyIncreasing_of_nonDecreasing_nodup {l : List UsbDevice}
    (h : NonDecreasing l) (hn : (l.map (fun d => d.address)).Nodup) :
    StrictlyIncreasing l := by
  have hne : l.Pairwise (fun a b => a.address ≠ b.address) := by
    have := List.pairwise_map.mp hn
    exact this
  refine (List.Pairwise.and h hne).imp ?_
  intro a b hab
  cases hlt : lessByAddress a b
  · exact absurd (UsbAddress.eq_of_not_lt hlt hab.1) hab.2
  · rfl

theorem address_of_makeUsbDeviceIfQdbDevice {device : LibusbDevice} {d : UsbDevice}
    (h : makeUsbDeviceIfQdbDevice device = some d) : d.address = getAddress device := by
  unfold makeUsbDeviceIfQdbDevice at h
  by_cases h1 : (!(findQdbInterface device).1) = true
  · simp [h1] at h
  · by_cases h2 : device.openRet = 0
    · simp [h1, h2] at h
      rw [← h]
    · simp [h1, h2] at h

theorem collectQdbDevices_addresses_sublist (devices : List LibusbDevice) :
    ((collectQdbDevices devices).map (fun d => d.address)).Sublist
      (devices.map getAddress) := by
  induction devices with
  | nil => simp [collectQdbDevices]
  | cons device rest ih =>
    unfold collectQdbDevices at *
    rw [List.filterMap_cons]
    split
    · exact List.Sublist.cons _ ih
    · rename_i d hd
      rw [List.map_cons, List.map_cons, address_of_makeUsbDeviceIfQdbDevice hd]
      exact List.Sublist.cons₂ _ ih

/-- A monitored poll after a failed enumeration: every snapshot device is reported
unplugged and the snapshot is emptied. -/
theorem pollQdbDevices_of_failure (self : UsbDeviceEnumerator) (usb : LibUsb)
    (hactive : self.pollTimerActive = true)
    (hfail : usb.contextInitialized = false ∨ usb.deviceCount < 0) :
    self.pollQdbDevices usb =
      (self.qdbDevices.map (fun d => EnumeratorSignal.deviceUnplugged d.address),
       { self with qdbDevices := [] }) := by
  simp only [UsbDeviceEnumerator.pollQdbDevices, makeUsbDevices_of_failure usb hfail, hactive,
    if_true, setDifference_nil_left, setDifference_nil_right, List.map_nil, List.nil_append]

/-- The poll inside `startMonitoring` runs with the timer active. -/
theorem startMonitoring_eq (self : UsbDeviceEnumerator) (usb : LibUsb)
    (hold : StrictlyIncreasing self.qdbDevices)
    (hnew : StrictlyIncreasing (makeUsbDevices usb)) :
    self.startMonitoring usb =
      ((notIn (makeUsbDevices usb) self.qdbDevices).map EnumeratorSignal.devicePluggedIn ++
        (notIn self.qdbDevices (makeUsbDevices usb)).map
          (fun d => EnumeratorSignal.deviceUnplugged d.address),
       { pollTimerActive := true, timeoutConnections := self.timeoutConnections + 1,
         qdbDevices := makeUsbDevices usb }) := by
  have h := pollQdbDevices_active
    { pollTimerActive := true, timeoutConnections := self.timeoutConnections + 1,
      qdbDevices := self.qdbDevices } usb rfl hold hnew
  simpa [UsbDeviceEnumerator.startMonitoring] using h

theorem nodup_addresses_of_strictlyIncreasing {l : List UsbDevice}
    (h : StrictlyIncreasing l) : (l.map (fun d => d.address)).Nodup := by
  refine List.pairwise_map.mpr (h.imp ?_)
  intro a b hab
  exact UsbAddress.ne_of_lt hab

/-- The snapshot built by a scan is non-decreasing by address. -/
theorem nonDecreasing_makeUsbDevices (usb : LibUsb) : NonDecreasing (makeUsbDevices usb) := by
  unfold makeUsbDevices
  split
  · exact List.Pairwise.nil
  · split
    · exact List.Pairwise.nil
    · exact nonDecreasing_stdSort _

/-- The addresses in the snapshot are, up to order, addresses of listed devices. -/
theorem nodup_addresses_makeUsbDevices (usb : LibUsb)
    (h : (usb.devices.map getAddress).Nodup) :
    ((makeUsbDevices usb).map (fun d => d.address)).Nodup := by
  unfold makeUsbDevices
  split
  · exact List.nodup_nil
  · split
    · exact List.nodup_nil
    · have hperm := (stdSort_perm lessByAddress
        (collectQdbDevices (usb.devices.take usb.deviceCount.toNat))).map (fun d => d.address)
      refine (List.Perm.nodup_iff hperm).mpr ?_
      have hsub := (collectQdbDevices_addresses_sublist
        (usb.devices.take usb.deviceCount.toNat)).trans
          ((List.take_sublist _ _).map getAddress)
      exact List.Nodup.sublist hsub h

/-- A list of devices whose addresses all occur in `ys` contributes nothing to a diff. -/
theorem notIn_eq_nil_of_same_addresses {xs ys : List UsbDevice}
    (h : ∀ a, hasAddress xs a = hasAddress ys a) : notIn xs ys = [] := by
  apply notIn_eq_nil_of_subset
  intro d hd
  rw [← h]
  exact hasAddress_self hd

theorem pollQdbDevices_inactive (self : UsbDeviceEnumerator) (usb : LibUsb)
    (hinactive : self.pollTimerActive = false) :
    self.pollQdbDevices usb = ([], { self with qdbDevices := makeUsbDevices usb }) := by
  simp [UsbDeviceEnumerator.pollQdbDevices, hinactive]

/-! ## The enumerator: claims -/

/-- C1: while monitoring is active, one call of `pollQdbDevices` with a strictly increasing
previous snapshot `old` and a strictly increasing scan result `new` emits exactly
`devicePluggedIn` for each device of `new` whose address is not in `old`, in ascending address
order, followed by `deviceUnplugged` with the address of each device of `old` whose address
is not in `new`, in ascending address order; nothing else changes except that the stored
snapshot becomes `new`. -/
theorem pollQdbDevices_emits_set_difference (self : UsbDeviceEnumerator) (usb : LibUsb)
    (old new : List UsbDevice)
    (hsnapshot : self.qdbDevices = old) (hscan : makeUsbDevices usb = new)
    (hactive : self.pollTimerActive = true)
    (hold : StrictlyIncreasing old) (hnew : StrictlyIncreasing new) :
    (self.pollQdbDevices usb).1 =
        (new.filter (fun d => !hasAddress old d.address)).map EnumeratorSignal.devicePluggedIn
          ++ (old.filter (fun d => !hasAddress new d.address)).map
            (fun d => EnumeratorSignal.deviceUnplugged d.address)
      ∧ StrictlyIncreasing (new.filter (fun d => !hasAddress old d.address))
      ∧ StrictlyIncreasing (old.filter (fun d => !hasAddress new d.address))
      ∧ (self.pollQdbDevices usb).2 = { self with qdbDevices := new } := by
  subst hsnapshot hscan
  rw [pollQdbDevices_active self usb hactive hold hnew]
  exact ⟨rfl, strictlyIncreasing_notIn _ hnew, strictlyIncreasing_notIn _ hold, rfl⟩

/-- C1, exercised: the snapshot holds devices at 1:2 and 1:3, the bus lists 1:4 and 1:3 (in
that order); the poll reports 1:4 plugged in and 1:2 unplugged. -/
theorem pollQdbDevices_emits_set_difference_witness :
    (UsbDeviceEnumerator.mk true 1 [sampleUsbDevice 1 1 2, sampleUsbDevice 2 1 3]).qdbDevices
        = [sampleUsbDevice 1 1 2, sampleUsbDevice 2 1 3]
      ∧ makeUsbDevices (sampleBus [sampleLibusbDevice 3 1 4, sampleLibusbDevice 2 1 3])
        = [sampleUsbDevice 2 1 3, sampleUsbDevice 3 1 4]
      ∧ StrictlyIncreasing [sampleUsbDevice 1 1 2, sampleUsbDevice 2 1 3]
      ∧ StrictlyIncreasing [sampleUsbDevice 2 1 3, sampleUsbDevice 3 1 4]
      ∧ ((UsbDeviceEnumerator.mk true 1 [sampleUsbDevice 1 1 2, sampleUsbDevice 2 1 3]).pollQdbDevices
          (sampleBus [sampleLibusbDevice 3 1 4, sampleLibusbDevice 2 1 3])).1
        = [EnumeratorSignal.devicePluggedIn (sampleUsbDevice 3 1 4),
           EnumeratorSignal.deviceUnplugged ⟨1, 2⟩] :=
  ⟨rfl, by decide, by decide, by decide,
    (pollQdbDevices_emits_set_difference
      (UsbDeviceEnumerator.mk true 1 [sampleUsbDevice 1 1 2, sampleUsbDevice 2 1 3])
      (sampleBus [sampleLibusbDevice 3 1 4, sampleLibusbDevice 2 1 3])
      [sampleUsbDevice 1 1 2, sampleUsbDevice 2 1 3]
      [sampleUsbDevice 2 1 3, sampleUsbDevice 3 1 4]
      rfl (by decide) rfl (by decide) (by decide)).1.trans (by decide)⟩

/-- C2, as the code behaves: a monitored poll whose bus enumeration fails (no libusb context,
or a negative count from `libusb_get_device_list`) treats the scan as empty: it emits no
`devicePluggedIn`, emits `deviceUnplugged` for every device of the previous snapshot, in
snapshot order, and leaves the snapshot empty. -/
theorem pollQdbDevices_failed_scan_unplugs_all (self : UsbDeviceEnumerator) (usb : LibUsb)
    (hactive : self.pollTimerActive = true)
    (hfail : usb.contextInitialized = false ∨ usb.deviceCount < 0) :
    self.pollQdbDevices usb =
      (self.qdbDevices.map (fun d => EnumeratorSignal.deviceUnplugged d.address),
       { self with qdbDevices := [] }) := by
  exact pollQdbDevices_of_failure self usb hactive hfail

/-- C2, exercised on a snapshot of one device and a failing `libusb_get_device_list`. -/
theorem pollQdbDevices_failed_scan_unplugs_all_witness :
    (UsbDeviceEnumerator.mk true 1 [sampleUsbDevice 1 1 2]).pollTimerActive = true
      ∧ (failingBus.contextInitialized = false ∨ failingBus.deviceCount < 0)
      ∧ (UsbDeviceEnumerator.mk true 1 [sampleUsbDevice 1 1 2]).pollQdbDevices failingBus
        = ([EnumeratorSignal.deviceUnplugged ⟨1, 2⟩], UsbDeviceEnumerator.mk true 1 []) :=
  ⟨rfl, Or.inr (by decide),
    pollQdbDevices_failed_scan_unplugs_all
      (UsbDeviceEnumerator.mk true 1 [sampleUsbDevice 1 1 2]) failingBus rfl
      (Or.inr (by decide))⟩

/-- C2 as stated fails: with a snapshot of one device and monitoring active, a poll whose
`libusb_get_device_list` returns a negative count emits `deviceUnplugged` for that device. -/
theorem pollQdbDevices_failed_scan_counterexample :
    (UsbDeviceEnumerator.mk true 1 [sampleUsbDevice 1 1 2]).qdbDevices ≠ []
      ∧ failingBus.deviceCount < 0
      ∧ ((UsbDeviceEnumerator.mk true 1 [sampleUsbDevice 1 1 2]).pollQdbDevices failingBus).1
        = [EnumeratorSignal.deviceUnplugged ⟨1, 2⟩]
      ∧ ((UsbDeviceEnumerator.mk true 1 [sampleUsbDevice 1 1 2]).pollQdbDevices failingBus).1
        ≠ [] := by
  rw [pollQdbDevices_of_failure _ failingBus rfl (Or.inr (by decide))]
  decide

/-- C3, as the code behaves: `startMonitoring` starts the timer before it polls, so its first
poll diffs like any monitored poll.  With a strictly increasing stored snapshot and scan it
emits `devicePluggedIn` for each scanned device whose address is not in the stored snapshot,
then `deviceUnplugged` for each stored device whose address is not in the scan, and leaves
the timer active, one more timer connection, and the scan as the snapshot. -/
theorem startMonitoring_first_poll_diffs (self : UsbDeviceEnumerator) (usb : LibUsb)
    (hold : StrictlyIncreasing self.qdbDevices)
    (hnew : StrictlyIncreasing (makeUsbDevices usb)) :
    self.startMonitoring usb =
      ((notIn (makeUsbDevices usb) self.qdbDevices).map EnumeratorSignal.devicePluggedIn ++
        (notIn self.qdbDevices (makeUsbDevices usb)).map
          (fun d => EnumeratorSignal.deviceUnplugged d.address),
       { pollTimerActive := true, timeoutConnections := self.timeoutConnections + 1,
         qdbDevices := makeUsbDevices usb }) := by
  exact startMonitoring_eq self usb hold hnew

/-- C3, exercised: a new enumerator started on a bus with one QDB device. -/
theorem startMonitoring_first_poll_diffs_witness :
    StrictlyIncreasing UsbDeviceEnumerator.new.qdbDevices
      ∧ StrictlyIncreasing (makeUsbDevices (sampleBus [sampleLibusbDevice 1 1 2]))
      ∧ UsbDeviceEnumerator.new.startMonitoring (sampleBus [sampleLibusbDevice 1 1 2])
        = ([EnumeratorSignal.devicePluggedIn (sampleUsbDevice 1 1 2)],
           UsbDeviceEnumerator.mk true 1 [sampleUsbDevice 1 1 2]) :=
  ⟨by decide, by decide,
    (startMonitoring_first_poll_diffs UsbDeviceEnumerator.new
      (sampleBus [sampleLibusbDevice 1 1 2]) (by decide) (by decide)).trans (by decide)⟩

/-- C3 as stated fails: the first poll of `startMonitoring` on a newly constructed enumerator
and a bus with one QDB device emits `devicePluggedIn` for that device. -/
theorem startMonitoring_first_poll_counterexample :
    (UsbDeviceEnumerator.new.startMonitoring (sampleBus [sampleLibusbDevice 1 1 2])).1
        = [EnumeratorSignal.devicePluggedIn (sampleUsbDevice 1 1 2)]
      ∧ (UsbDeviceEnumerator.new.startMonitoring (sampleBus [sampleLibusbDevice 1 1 2])).1
        ≠ [] := by
  rw [startMonitoring_eq _ _ (by decide) (by decide)]
  decide

/-- C8: for every list of devices libusb returns in one scan, in any order (one scan lists no
two devices at the same bus number and device address), the snapshot produced by
`makeUsbDevices` is strictly increasing by address (bus number, then device address), so no
two of its entries share an address; `pollQdbDevices` stores exactly this snapshot. -/
theorem makeUsbDevices_sorted (usb : LibUsb) (hdistinct : DistinctAddresses usb) :
    StrictlyIncreasing (makeUsbDevices usb)
      ∧ ((makeUsbDevices usb).map (fun d => d.address)).Nodup
      ∧ (∀ self : UsbDeviceEnumerator,
          (self.pollQdbDevices usb).2.qdbDevices = makeUsbDevices usb
            ∧ StrictlyIncreasing (self.pollQdbDevices usb).2.qdbDevices) :=
  have hsorted : StrictlyIncreasing (makeUsbDevices usb) :=
    strictlyIncreasing_of_nonDecreasing_nodup (nonDecreasing_makeUsbDevices usb)
      (nodup_addresses_makeUsbDevices usb hdistinct)
  ⟨hsorted, nodup_addresses_makeUsbDevices usb hdistinct, fun _ => ⟨rfl, hsorted⟩⟩

/-- C8, exercised: three QDB devices listed out of address order are stored in strictly
increasing order. -/
theorem makeUsbDevices_sorted_witness :
    DistinctAddresses (sampleBus [sampleLibusbDevice 1 2 1, sampleLibusbDevice 2 1 9,
        sampleLibusbDevice 3 1 4])
      ∧ StrictlyIncreasing (makeUsbDevices (sampleBus [sampleLibusbDevice 1 2 1,
        sampleLibusbDevice 2 1 9, sampleLibusbDevice 3 1 4]))
      ∧ makeUsbDevices (sampleBus [sampleLibusbDevice 1 2 1, sampleLibusbDevice 2 1 9,
        sampleLibusbDevice 3 1 4])
        = [sampleUsbDevice 3 1 4, sampleUsbDevice 2 1 9, sampleUsbDevice 1 2 1] :=
  ⟨by decide,
   (makeUsbDevices_sorted (sampleBus [sampleLibusbDevice 1 2 1, sampleLibusbDevice 2 1 9,
      sampleLibusbDevice 3 1 4]) (by decide)).1,
   by decide⟩

/-- C9: for a strictly increasing scan result `S`, `listUsbDevices` called while monitoring is
not active emits nothing, returns `S` and stores `S`; if `startMonitoring` follows and its
scan `T` has the same set of addresses, the poll of `startMonitoring` emits no signal.  The
later scan is taken from any libusb listing, which holds no two devices at the same
address. -/
theorem listUsbDevices_then_startMonitoring_silent (self : UsbDeviceEnumerator)
    (usb usbLater : LibUsb) (S T : List UsbDevice)
    (hinactive : self.pollTimerActive = false)
    (hscan : makeUsbDevices usb = S) (hS : StrictlyIncreasing S)
    (hlisting : DistinctAddresses usbLater) (hlater : makeUsbDevices usbLater = T)
    (hsame : ∀ a, hasAddress T a = hasAddress S a) :
    (self.listUsbDevices usb).1 = []
      ∧ (self.listUsbDevices usb).2.1 = S
      ∧ (self.listUsbDevices usb).2.2.qdbDevices = S
      ∧ ((self.listUsbDevices usb).2.2.startMonitoring usbLater).1 = [] := by
  subst hscan hlater
  have hT : StrictlyIncreasing (makeUsbDevices usbLater) :=
    strictlyIncreasing_of_nonDecreasing_nodup (nonDecreasing_makeUsbDevices usbLater)
      (nodup_addresses_makeUsbDevices usbLater hlisting)
  have hlist : self.listUsbDevices usb =
      ([], makeUsbDevices usb, { self with qdbDevices := makeUsbDevices usb }) := by
    simp [UsbDeviceEnumerator.listUsbDevices, pollQdbDevices_inactive self usb hinactive]
  rw [hlist]
  refine ⟨rfl, rfl, rfl, ?_⟩
  rw [startMonitoring_eq _ usbLater hS hT]
  simp only
  rw [notIn_eq_nil_of_same_addresses hsame,
    notIn_eq_nil_of_same_addresses (fun a => (hsame a).symm)]
  rfl

/-- C9, exercised: a new enumerator lists a bus with devices at 1:2 and 1:3, then starts
monitoring while the bus lists the same two addresses in the other order. -/
theorem listUsbDevices_then_startMonitoring_silent_witness :
    UsbDeviceEnumerator.new.pollTimerActive = false
      ∧ makeUsbDevices (sampleBus [sampleLibusbDevice 1 1 2, sampleLibusbDevice 2 1 3])
        = [sampleUsbDevice 1 1 2, sampleUsbDevice 2 1 3]
      ∧ StrictlyIncreasing [sampleUsbDevice 1 1 2, sampleUsbDevice 2 1 3]
      ∧ DistinctAddresses (sampleBus [sampleLibusbDevice 8 1 3, sampleLibusbDevice 7 1 2])
      ∧ makeUsbDevices (sampleBus [sampleLibusbDevice 8 1 3, sampleLibusbDevice 7 1 2])
        = [sampleUsbDevice 7 1 2, sampleUsbDevice 8 1 3]
      ∧ ((UsbDeviceEnumerator.new.listUsbDevices
            (sampleBus [sampleLibusbDevice 1 1 2, sampleLibusbDevice 2 1 3])).2.2.startMonitoring
          (sampleBus [sampleLibusbDevice 8 1 3, sampleLibusbDevice 7 1 2])).1 = [] :=
  ⟨rfl, by decide, by decide, by decide, by decide,
   (listUsbDevices_then_startMonitoring_silent UsbDeviceEnumerator.new
      (sampleBus [sampleLibusbDevice 1 1 2, sampleLibusbDevice 2 1 3])
      (sampleBus [sampleLibusbDevice 8 1 3, sampleLibusbDevice 7 1 2])
      [sampleUsbDevice 1 1 2, sampleUsbDevice 2 1 3]
      [sampleUsbDevice 7 1 2, sampleUsbDevice 8 1 3]
      rfl (by decide) (by decide) (by decide) (by decide)
      (by
        intro a
        by_cases h2 : a = ⟨1, 2⟩
        · subst h2; decide
        · by_cases h3 : a = ⟨1, 3⟩
          · subst h3; decide
          · simp [hasAddress, sampleUsbDevice, h2, h3,
              fun h : (⟨1, 2⟩ : UsbAddress) = a => h2 h.symm,
              fun h : (⟨1, 3⟩ : UsbAddress) = a => h3 h.symm])).2.2.2⟩

/-! ## The servlet: responses as built by the slots -/

theorem deviceInformationToJsonObject_eq (d : DeviceInformation) :
    deviceInformationToJsonObject d =
      [(qstr "serial", QJsonValue.string d.serial),
       (qstr "hostMac", QJsonValue.string d.hostMac),
       (qstr "ipAddress", QJsonValue.string d.ipAddress)] := rfl

theorem unsupportedVersionResponse_eq (V : Int) :
    (initializeResponse ResponseType.UnsupportedVersion).insert (qstr "supported-version")
        (QJsonValue.number V) =
      [(qstr "type", QJsonValue.string (qstr "unsupported-version")),
       (qstr "supported-version", QJsonValue.number V)] := rfl

theorem devicesResponse_eq (items : List QJsonValue) :
    (initializeResponse ResponseType.Devices).insert (qstr "devices")
        (QJsonValue.array items) =
      [(qstr "type", QJsonValue.string (qstr "devices")),
       (qstr "devices", QJsonValue.array items)] := rfl

theorem newDeviceResponse_eq (v : QJsonValue) :
    (initializeResponse ResponseType.NewDevice).insert (qstr "device") v =
      [(qstr "type", QJsonValue.string (qstr "new-device")), (qstr "device", v)] := rfl

theorem disconnectedDeviceResponse_eq (serial : QString) :
    (initializeResponse ResponseType.DisconnectedDevice).insert (qstr "serial")
        (QJsonValue.string serial) =
      [(qstr "type", QJsonValue.string (qstr "disconnected-device")),
       (qstr "serial", QJsonValue.string serial)] := rfl

/-- The version gate of `handleRequest`. -/
theorem handleRequest_gate (V : Int) (self : HostServlet) (request : QJsonDocument)
    (deviceInfos : List DeviceInformation)
    (hversion : checkHostMessageVersion V request.toObject = false)
    (htype : requestType request.toObject ≠ RequestType.StopServer) :
    self.handleRequest V request deviceInfos =
      ([ServletEffect.socketWrite
          [(qstr "type", QJsonValue.string (qstr "unsupported-version")),
           (qstr "supported-version", QJsonValue.number V)],
        ServletEffect.socketWaitForBytesWritten,
        ServletEffect.socketDisconnectFromServer], self) := by
  unfold HostServlet.handleRequest
  simp only [hversion, Bool.not_false, Bool.true_and, bne_iff_ne, ne_eq, htype,
    not_false_eq_true, if_true, unsupportedVersionResponse_eq, HostServlet.close]

/-- A `stop-server` request passes the gate whatever its version. -/
theorem handleRequest_stopServer (V : Int) (self : HostServlet) (request : QJsonDocument)
    (deviceInfos : List DeviceInformation)
    (htype : requestType request.toObject = RequestType.StopServer) :
    self.handleRequest V request deviceInfos =
      ((if self.socketWritable
          then [ServletEffect.socketWrite [(qstr "type", QJsonValue.string (qstr "stopping"))]]
          else []) ++ [ServletEffect.emitServerStopRequested], self) := by
  unfold HostServlet.handleRequest
  simp only [htype, bne_self_eq_false, Bool.and_false, Bool.false_eq_true, if_false,
    HostServlet.stopServer]
  cases self.socketWritable <;> rfl

/-- Past the gate, `handleRequest` dispatches on the request type. -/
theorem handleRequest_dispatch (V : Int) (self : HostServlet) (request : QJsonDocument)
    (deviceInfos : List DeviceInformation)
    (hversion : checkHostMessageVersion V request.toObject = true) :
    self.handleRequest V request deviceInfos =
      match requestType request.toObject with
      | RequestType.Devices => (self.replyDevices deviceInfos, self)
      | RequestType.WatchDevices => self.startWatchingDevices deviceInfos
      | RequestType.StopServer => (self.stopServer, self)
      | RequestType.Unknown =>
        (ServletEffect.socketWrite (initializeResponse ResponseType.InvalidRequest)
          :: HostServlet.close, self) := by
  unfold HostServlet.handleRequest
  simp only [hversion, Bool.not_true, Bool.false_and, Bool.false_eq_true, if_false]

theorem replyDevices_eq (self : HostServlet) (deviceInfos : List DeviceInformation) :
    self.replyDevices deviceInfos =
      if self.socketWritable then
        [ServletEffect.socketWrite
          [(qstr "type", QJsonValue.string (qstr "devices")),
           (qstr "devices", QJsonValue.array (deviceInfos.map fun d =>
              QJsonValue.object
                [(qstr "serial", QJsonValue.string d.serial),
                 (qstr "hostMac", QJsonValue.string d.hostMac),
                 (qstr "ipAddress", QJsonValue.string d.ipAddress)]))],
         ServletEffect.socketWaitForBytesWritten,
         ServletEffect.socketDisconnectFromServer]
      else [] := by
  unfold HostServlet.replyDevices
  simp only [devicesResponse_eq, HostServlet.close]
  cases self.socketWritable <;> rfl

theorem replyNewDevice_eq (self : HostServlet) (d : DeviceInformation)
    (hwritable : self.socketWritable = true) :
    self.replyNewDevice d =
      [ServletEffect.socketWrite
        [(qstr "type", QJsonValue.string (qstr "new-device")),
         (qstr "device", QJsonValue.object
            [(qstr "serial", QJsonValue.string d.serial),
             (qstr "hostMac", QJsonValue.string d.hostMac),
             (qstr "ipAddress", QJsonValue.string d.ipAddress)])]] := by
  unfold HostServlet.replyNewDevice
  simp only [newDeviceResponse_eq, hwritable]
  rfl

theorem replyDisconnectedDevice_eq (self : HostServlet) (serial : QString)
    (hwritable : self.socketWritable = true) :
    self.replyDisconnectedDevice serial =
      [ServletEffect.socketWrite
        [(qstr "type", QJsonValue.string (qstr "disconnected-device")),
         (qstr "serial", QJsonValue.string serial)]] := by
  unfold HostServlet.replyDisconnectedDevice
  simp only [disconnectedDeviceResponse_eq, hwritable]
  rfl

theorem writtenResponses_append (xs ys : List ServletEffect) :
    writtenResponses (xs ++ ys) = writtenResponses xs ++ writtenResponses ys := by
  induction xs with
  | nil => rfl
  | cons x xs ih => cases x <;> simp [writtenResponses, ih]

theorem writtenResponses_replicate (n : Nat) (r : QJsonObject) :
    writtenResponses (List.replicate n [ServletEffect.socketWrite r]).flatten
      = List.replicate n r := by
  induction n with
  | zero => rfl
  | succ n ih =>
    rw [List.replicate_succ, List.flatten_cons, writtenResponses_append, ih]
    rfl

theorem writtenResponses_flatten_map {α : Type} (f : α → QJsonObject) (l : List α) :
    writtenResponses (l.map fun a => [ServletEffect.socketWrite (f a)]).flatten = l.map f := by
  induction l with
  | nil => rfl
  | cons a l ih =>
    rw [List.map_cons, List.flatten_cons, writtenResponses_append, ih]
    rfl

/-- The state after one input: only a `watch-devices` request that passes the version gate
changes it, adding one connection to each Device Manager signal. -/
theorem step_state (V : Int) (self : HostServlet) (input : ServletInput) :
    (self.step V input).2 =
      if isWatchRequest V input then
        { self with
          newDeviceInfoConnections := self.newDeviceInfoConnections + 1
          disconnectedDeviceConnections := self.disconnectedDeviceConnections + 1 }
      else self := by
  cases input with
  | newDeviceInfo d => rfl
  | disconnectedDevice serial => rfl
  | request document deviceInfos =>
    simp only [HostServlet.step, isWatchRequest]
    rcases Bool.eq_false_or_eq_true (checkHostMessageVersion V document.toObject)
      with hversion | hversion
    · rw [handleRequest_dispatch V self document deviceInfos hversion]
      simp only [hversion, Bool.true_and]
      rcases htype : requestType document.toObject <;>
        simp [HostServlet.startWatchingDevices]
    · simp only [hversion, Bool.false_and, Bool.false_eq_true, if_false]
      by_cases htype : requestType document.toObject = RequestType.StopServer
      · rw [handleRequest_stopServer V self document deviceInfos htype]
      · rw [handleRequest_gate V self document deviceInfos hversion htype]

/-- The state after a sequence of inputs: one more connection to each Device Manager signal
per `watch-devices` request that passed the version gate. -/
theorem run_state (V : Int) (self : HostServlet) (inputs : List ServletInput) :
    (HostServlet.run V self inputs).2 =
      { self with
        newDeviceInfoConnections := self.newDeviceInfoConnections + watchRequests V inputs
        disconnectedDeviceConnections :=
          self.disconnectedDeviceConnections + watchRequests V inputs } := by
  induction inputs generalizing self with
  | nil => simp [HostServlet.run, watchRequests]
  | cons input rest ih =>
    simp only [HostServlet.run]
    rw [ih, step_state]
    unfold watchRequests at *
    rw [List.countP_cons]
    cases isWatchRequest V input
    · simp
    · simp only [if_true, HostServlet.mk.injEq, true_and]
      omega

/-- The effects of a sequence of inputs extended by one input: those of the sequence, then
those of the last input handled in the state the sequence leaves. -/
theorem run_append_singleton (V : Int) (self : HostServlet) (earlier : List ServletInput)
    (input : ServletInput) :
    (HostServlet.run V self (earlier ++ [input])).1 =
      (HostServlet.run V self earlier).1 ++
        [((HostServlet.run V self earlier).2.step V input).1] := by
  induction earlier generalizing self with
  | nil => simp [HostServlet.run]
  | cons first rest ih => simp [HostServlet.run, ih]

/-- On a writable socket, subscribing replays the device list, one response per device. -/
theorem writtenResponses_startWatchingDevices (self : HostServlet)
    (deviceInfos : List DeviceInformation) (hwritable : self.socketWritable = true) :
    writtenResponses (self.startWatchingDevices deviceInfos).1 =
      deviceInfos.map fun d =>
        [(qstr "type", QJsonValue.string (qstr "new-device")),
         (qstr "device", QJsonValue.object
            [(qstr "serial", QJsonValue.string d.serial),
             (qstr "hostMac", QJsonValue.string d.hostMac),
             (qstr "ipAddress", QJsonValue.string d.ipAddress)])] := by
  unfold HostServlet.startWatchingDevices
  simp only [writtenResponses_append]
  have hreply : (HostServlet.replyNewDevice
      { self with
        newDeviceInfoConnections := self.newDeviceInfoConnections + 1
        disconnectedDeviceConnections := self.disconnectedDeviceConnections + 1 }) =
      fun d => [ServletEffect.socketWrite
        [(qstr "type", QJsonValue.string (qstr "new-device")),
         (qstr "device", QJsonValue.object
            [(qstr "serial", QJsonValue.string d.serial),
             (qstr "hostMac", QJsonValue.string d.hostMac),
             (qstr "ipAddress", QJsonValue.string d.ipAddress)])]] := by
    funext d
    exact replyNewDevice_eq _ d hwritable
  rw [hreply, writtenResponses_flatten_map]
  rfl

/-! ## The servlet: claims -/

/-- C4: a request whose version does not match `qdbHostMessageVersion`.  If its type is not
`stop-server`, `handleRequest` writes exactly one response, of type `unsupported-version` with
`supported-version` equal to `qdbHostMessageVersion`, then closes the socket; it writes no
other response, makes no connection to the Device Manager (the state is unchanged) and does
not emit `serverStopRequested`.  If its type is `stop-server`, `serverStopRequested` is
emitted, preceded by a `stopping` response when the socket is writable. -/
theorem handleRequest_version_mismatch (V : Int) (self : HostServlet)
    (request : QJsonDocument) (deviceInfos : List DeviceInformation)
    (hversion : checkHostMessageVersion V request.toObject = false) :
    (requestType request.toObject ≠ RequestType.StopServer →
      self.handleRequest V request deviceInfos =
        ([ServletEffect.socketWrite
            [(qstr "type", QJsonValue.string (qstr "unsupported-version")),
             (qstr "supported-version", QJsonValue.number V)],
          ServletEffect.socketWaitForBytesWritten,
          ServletEffect.socketDisconnectFromServer], self))
    ∧ (requestType request.toObject = RequestType.StopServer →
      self.handleRequest V request deviceInfos =
        ((if self.socketWritable
            then [ServletEffect.socketWrite
              [(qstr "type", QJsonValue.string (qstr "stopping"))]]
            else []) ++ [ServletEffect.emitServerStopRequested], self)) :=
  ⟨handleRequest_gate V self request deviceInfos hversion,
   handleRequest_stopServer V self request deviceInfos⟩

/-- C4, exercised with server version 3: a `devices` request of version 2 and a `stop-server`
request of version 99, both on a writable socket. -/
theorem handleRequest_version_mismatch_witness :
    checkHostMessageVersion 3 (sampleRequest "devices" 2).toObject = false
      ∧ requestType (sampleRequest "devices" 2).toObject ≠ RequestType.StopServer
      ∧ (HostServlet.mk 1 true 0 0).handleRequest 3 (sampleRequest "devices" 2)
          [sampleDeviceInformation] =
        ([ServletEffect.socketWrite
            [(qstr "type", QJsonValue.string (qstr "unsupported-version")),
             (qstr "supported-version", QJsonValue.number 3)],
          ServletEffect.socketWaitForBytesWritten,
          ServletEffect.socketDisconnectFromServer], HostServlet.mk 1 true 0 0)
      ∧ checkHostMessageVersion 3 (sampleRequest "stop-server" 99).toObject = false
      ∧ requestType (sampleRequest "stop-server" 99).toObject = RequestType.StopServer
      ∧ (HostServlet.mk 1 true 0 0).handleRequest 3 (sampleRequest "stop-server" 99) [] =
        ([ServletEffect.socketWrite [(qstr "type", QJsonValue.string (qstr "stopping"))],
          ServletEffect.emitServerStopRequested], HostServlet.mk 1 true 0 0) :=
  ⟨rfl, by decide,
   (handleRequest_version_mismatch 3 (HostServlet.mk 1 true 0 0) (sampleRequest "devices" 2)
      [sampleDeviceInformation] rfl).1 (by decide),
   rfl, rfl,
   (handleRequest_version_mismatch 3 (HostServlet.mk 1 true 0 0)
      (sampleRequest "stop-server" 99) [] rfl).2 rfl⟩

/-- C5, as the code behaves: a `devices` request with matching version, on a writable socket,
makes the servlet write exactly one response of type `devices` whose `devices` array has one
object per `DeviceInformation` of the list, in list order, with `serial`, `hostMac` and
`ipAddress` copied unchanged, and then close the socket; when the socket is not writable the
servlet writes nothing and does not close it.  The servlet state is unchanged. -/
theorem handleRequest_devices (V : Int) (self : HostServlet) (request : QJsonDocument)
    (deviceInfos : List DeviceInformation)
    (hversion : checkHostMessageVersion V request.toObject = true)
    (htype : requestType request.toObject = RequestType.Devices) :
    self.handleRequest V request deviceInfos =
      (if self.socketWritable then
        [ServletEffect.socketWrite
          [(qstr "type", QJsonValue.string (qstr "devices")),
           (qstr "devices", QJsonValue.array (deviceInfos.map fun d =>
              QJsonValue.object
                [(qstr "serial", QJsonValue.string d.serial),
                 (qstr "hostMac", QJsonValue.string d.hostMac),
                 (qstr "ipAddress", QJsonValue.string d.ipAddress)]))],
         ServletEffect.socketWaitForBytesWritten,
         ServletEffect.socketDisconnectFromServer]
      else [], self) := by
  rw [handleRequest_dispatch V self request deviceInfos hversion, htype]
  simp only [replyDevices_eq]

/-- C5, exercised with server version 3 on the empty device list and a writable socket. -/
theorem handleRequest_devices_witness :
    checkHostMessageVersion 3 (sampleRequest "devices" 3).toObject = true
      ∧ requestType (sampleRequest "devices" 3).toObject = RequestType.Devices
      ∧ (HostServlet.mk 1 true 0 0).handleRequest 3 (sampleRequest "devices" 3) [] =
        ([ServletEffect.socketWrite
            [(qstr "type", QJsonValue.string (qstr "devices")),
             (qstr "devices", QJsonValue.array [])],
          ServletEffect.socketWaitForBytesWritten,
          ServletEffect.socketDisconnectFromServer], HostServlet.mk 1 true 0 0) :=
  ⟨rfl, rfl,
   handleRequest_devices 3 (HostServlet.mk 1 true 0 0) (sampleRequest "devices" 3) [] rfl rfl⟩

/-- C5 as stated fails: on a socket that is not writable, a `devices` request with matching
version makes the servlet write no response and leave the socket open (no effect at all). -/
theorem handleRequest_devices_counterexample :
    checkHostMessageVersion 3 (sampleRequest "devices" 3).toObject = true
      ∧ requestType (sampleRequest "devices" 3).toObject = RequestType.Devices
      ∧ ((HostServlet.mk 1 false 0 0).handleRequest 3 (sampleRequest "devices" 3)
          [sampleDeviceInformation]).1 = []
      ∧ (writtenResponses ((HostServlet.mk 1 false 0 0).handleRequest 3
          (sampleRequest "devices" 3) [sampleDeviceInformation]).1).length ≠ 1 :=
  ⟨rfl, rfl, rfl, by decide⟩

/-- C7, as the code behaves: for every request whose `type` is missing or unrecognised
(an unparseable line, which yields the empty object, included), `handleRequest` writes exactly
one response and closes the socket, leaving the servlet state unchanged; the response is
`invalid-request` when the request's version matches `qdbHostMessageVersion` and
`unsupported-version` when it does not, as for a line that is not parseable JSON or is a JSON
array, neither of which has a `version` member. -/
theorem handleRequest_unknown_type (V : Int) (self : HostServlet)
    (deviceInfos : List DeviceInformation) :
    (∀ request, requestType request.toObject = RequestType.Unknown →
      self.handleRequest V request deviceInfos =
        ([ServletEffect.socketWrite
            (if checkHostMessageVersion V request.toObject
              then [(qstr "type", QJsonValue.string (qstr "invalid-request"))]
              else [(qstr "type", QJsonValue.string (qstr "unsupported-version")),
                    (qstr "supported-version", QJsonValue.number V)]),
          ServletEffect.socketWaitForBytesWritten,
          ServletEffect.socketDisconnectFromServer], self))
    ∧ requestType QJsonDocument.null.toObject = RequestType.Unknown
    ∧ checkHostMessageVersion V QJsonDocument.null.toObject = false
    ∧ (∀ items, requestType (QJsonDocument.array items).toObject = RequestType.Unknown
        ∧ checkHostMessageVersion V (QJsonDocument.array items).toObject = false)
    ∧ (∀ o : QJsonObject, o.value (qstr "type") = QJsonValue.undefined →
        requestType (QJsonDocument.object o).toObject = RequestType.Unknown) := by
  refine ⟨?_, rfl, rfl, fun _ => ⟨rfl, rfl⟩, ?_⟩
  · intro request htype
    rcases Bool.eq_false_or_eq_true (checkHostMessageVersion V request.toObject)
      with hversion | hversion
    · rw [handleRequest_dispatch V self request deviceInfos hversion, htype]
      simp only [hversion, if_true]
      rfl
    · rw [handleRequest_gate V self request deviceInfos hversion (by rw [htype]; decide)]
      simp only [hversion, Bool.false_eq_true, if_false]
  · intro o hundefined
    simp only [QJsonDocument.toObject, requestType, hundefined]

/-- C7, exercised with server version 3 on a request of unrecognised type `foobar` and
matching version. -/
theorem handleRequest_unknown_type_witness :
    requestType (sampleRequest "foobar" 3).toObject = RequestType.Unknown
      ∧ (HostServlet.mk 1 true 0 0).handleRequest 3 (sampleRequest "foobar" 3) [] =
        ([ServletEffect.socketWrite
            [(qstr "type", QJsonValue.string (qstr "invalid-request"))],
          ServletEffect.socketWaitForBytesWritten,
          ServletEffect.socketDisconnectFromServer], HostServlet.mk 1 true 0 0) :=
  ⟨rfl,
   (handleRequest_unknown_type 3 (HostServlet.mk 1 true 0 0) []).1
     (sampleRequest "foobar" 3) rfl⟩

/-- C7 as stated fails: with server version 3, a request of unrecognised type `foobar` and
version 2 is answered with `unsupported-version`, not `invalid-request`; so is a line that is
not parseable JSON. -/
theorem handleRequest_unknown_type_counterexample :
    requestType (sampleRequest "foobar" 2).toObject = RequestType.Unknown
      ∧ writtenResponses ((HostServlet.mk 1 true 0 0).handleRequest 3
          (sampleRequest "foobar" 2) []).1 =
        [[(qstr "type", QJsonValue.string (qstr "unsupported-version")),
          (qstr "supported-version", QJsonValue.number 3)]]
      ∧ writtenResponses ((HostServlet.mk 1 true 0 0).handleRequest 3
          QJsonDocument.null []).1 =
        [[(qstr "type", QJsonValue.string (qstr "unsupported-version")),
          (qstr "supported-version", QJsonValue.number 3)]]
      ∧ ((writtenResponses ((HostServlet.mk 1 true 0 0).handleRequest 3
          (sampleRequest "foobar" 2) []).1).map
            (fun r => QJsonObject.value r (qstr "type")))
        ≠ [QJsonValue.string (qstr "invalid-request")] := by
  refine ⟨rfl, rfl, rfl, ?_⟩
  intro h
  have h1 : (QJsonValue.string (qstr "unsupported-version")) =
      QJsonValue.string (qstr "invalid-request") := List.head_eq_of_cons_eq h
  have h2 : qstr "unsupported-version" = qstr "invalid-request" := QJsonValue.string.inj h1
  exact absurd h2 (by decide)

/-- C6, as the code behaves: take a servlet with a writable socket and any sequence of inputs
it has handled.  A `watch-devices` request with matching version handled next writes exactly
one `new-device` response per device of `listDevices()`, in list order.  A `newDeviceInfo` or
`disconnectedDevice` signal handled next is written as `new-device` or `disconnected-device`
carrying the device or serial, once per connection: as many times as the servlet had
connections at the start plus the number of `watch-devices` requests with matching version
handled so far (exactly once after a single such request on a new servlet).  The effects of
a sequence are those of its inputs in the order the inputs arrived. -/
theorem watch_devices_delivery (V : Int) (self : HostServlet) (earlier : List ServletInput)
    (hwritable : self.socketWritable = true) :
    (∀ document deviceInfos,
      isWatchRequest V (ServletInput.request document deviceInfos) = true →
      writtenResponses ((HostServlet.run V self earlier).2.step V
          (ServletInput.request document deviceInfos)).1 =
        deviceInfos.map fun d =>
          [(qstr "type", QJsonValue.string (qstr "new-device")),
           (qstr "device", QJsonValue.object
              [(qstr "serial", QJsonValue.string d.serial),
               (qstr "hostMac", QJsonValue.string d.hostMac),
               (qstr "ipAddress", QJsonValue.string d.ipAddress)])])
    ∧ (∀ d : DeviceInformation,
      writtenResponses ((HostServlet.run V self earlier).2.step V
          (ServletInput.newDeviceInfo d)).1 =
        List.replicate (self.newDeviceInfoConnections + watchRequests V earlier)
          [(qstr "type", QJsonValue.string (qstr "new-device")),
           (qstr "device", QJsonValue.object
              [(qstr "serial", QJsonValue.string d.serial),
               (qstr "hostMac", QJsonValue.string d.hostMac),
               (qstr "ipAddress", QJsonValue.string d.ipAddress)])])
    ∧ (∀ serial : QString,
      writtenResponses ((HostServlet.run V self earlier).2.step V
          (ServletInput.disconnectedDevice serial)).1 =
        List.replicate (self.disconnectedDeviceConnections + watchRequests V earlier)
          [(qstr "type", QJsonValue.string (qstr "disconnected-device")),
           (qstr "serial", QJsonValue.string serial)])
    ∧ (∀ input, (HostServlet.run V self (earlier ++ [input])).1 =
        (HostServlet.run V self earlier).1 ++
          [((HostServlet.run V self earlier).2.step V input).1]) := by
  have hstate := run_state V self earlier
  have hw : (HostServlet.run V self earlier).2.socketWritable = true := by
    rw [hstate]; exact hwritable
  refine ⟨?_, ?_, ?_, run_append_singleton V self earlier⟩
  · intro document deviceInfos hwatch
    simp only [isWatchRequest, Bool.and_eq_true, beq_iff_eq] at hwatch
    simp only [HostServlet.step]
    rw [handleRequest_dispatch V _ document deviceInfos hwatch.1, hwatch.2]
    exact writtenResponses_startWatchingDevices _ deviceInfos hw
  · intro d
    simp only [HostServlet.step, HostServlet.onNewDeviceInfo]
    rw [replyNewDevice_eq _ d hw, writtenResponses_replicate, hstate]
  · intro serial
    simp only [HostServlet.step, HostServlet.onDisconnectedDevice]
    rw [replyDisconnectedDevice_eq _ serial hw, writtenResponses_replicate, hstate]

/-- C6, exercised with server version 3: a new servlet handles one `watch-devices` request;
the `newDeviceInfo` signal that follows is written exactly once. -/
theorem watch_devices_delivery_witness :
    (HostServlet.mk 1 true 0 0).socketWritable = true
      ∧ watchRequests 3 [ServletInput.request (sampleRequest "watch-devices" 3) []] = 1
      ∧ writtenResponses ((HostServlet.run 3 (HostServlet.mk 1 true 0 0)
            [ServletInput.request (sampleRequest "watch-devices" 3) []]).2.step 3
          (ServletInput.newDeviceInfo sampleDeviceInformation)).1 =
        [[(qstr "type", QJsonValue.string (qstr "new-device")),
          (qstr "device", QJsonValue.object
            [(qstr "serial", QJsonValue.string (qstr "A123")),
             (qstr "hostMac", QJsonValue.string (qstr "02:00:00:00:00:01")),
             (qstr "ipAddress", QJsonValue.string (qstr "10.10.10.2"))])]] :=
  ⟨rfl, rfl,
   ((watch_devices_delivery 3 (HostServlet.mk 1 true 0 0)
      [ServletInput.request (sampleRequest "watch-devices" 3) []] rfl).2.1
        sampleDeviceInformation).trans rfl⟩

/-- C6 as stated fails: with server version 3, a new servlet on a writable socket handles two
`watch-devices` requests; the `newDeviceInfo` signal that follows is written twice, and so is
a `disconnectedDevice` signal. -/
theorem watch_devices_delivery_counterexample :
    writtenResponses ((HostServlet.run 3 (HostServlet.mk 1 true 0 0)
          [ServletInput.request (sampleRequest "watch-devices" 3) [],
           ServletInput.request (sampleRequest "watch-devices" 3) []]).2.step 3
        (ServletInput.newDeviceInfo sampleDeviceInformation)).1 =
      [[(qstr "type", QJsonValue.string (qstr "new-device")),
        (qstr "device", QJsonValue.object
          [(qstr "serial", QJsonValue.string (qstr "A123")),
           (qstr "hostMac", QJsonValue.string (qstr "02:00:00:00:00:01")),
           (qstr "ipAddress", QJsonValue.string (qstr "10.10.10.2"))])],
       [(qstr "type", QJsonValue.string (qstr "new-device")),
        (qstr "device", QJsonValue.object
          [(qstr "serial", QJsonValue.string (qstr "A123")),
           (qstr "hostMac", QJsonValue.string (qstr "02:00:00:00:00:01")),
           (qstr "ipAddress", QJsonValue.string (qstr "10.10.10.2"))])]]
    ∧ (writtenResponses ((HostServlet.run 3 (HostServlet.mk 1 true 0 0)
          [ServletInput.request (sampleRequest "watch-devices" 3) [],
           ServletInput.request (sampleRequest "watch-devices" 3) []]).2.step 3
        (ServletInput.newDeviceInfo sampleDeviceInformation)).1).length ≠ 1
    ∧ (writtenResponses ((HostServlet.run 3 (HostServlet.mk 1 true 0 0)
          [ServletInput.request (sampleRequest "watch-devices" 3) [],
           ServletInput.request (sampleRequest "watch-devices" 3) []]).2.step 3
        (ServletInput.disconnectedDevice (qstr "A123"))).1).length = 2 :=
  ⟨rfl, by decide, rfl⟩

/-! ## The gadget: claims -/

/-- C10: the two constant blobs written to `ep0`, byte for byte, multi-byte fields
little-endian.  Descriptors (62 bytes): magic `FUNCTIONFS_DESCRIPTORS_MAGIC`, own length 62,
full-speed count 3, high-speed count 3; full-speed interface descriptor (9 bytes: number 0,
alternate setting 0, two endpoints, class `0xFF`, subclass `0x52`, protocol `0x01`,
`iInterface` 1), bulk endpoint `0x01` with packet size 64, bulk endpoint `0x82` with packet
size 64; the same triple for high speed with packet size 512.  Strings (32 bytes): magic
`FUNCTIONFS_STRINGS_MAGIC`, own length 32, string count 1, language count 1, language
`0x0409`, the 13 characters of `QDB Interface` and one NUL. -/
theorem gadget_blobs_match_schema :
    descriptorsBlob =
        [FUNCTIONFS_DESCRIPTORS_MAGIC, 0, 0, 0,   62, 0, 0, 0,   3, 0, 0, 0,   3, 0, 0, 0,
         9, USB_DT_INTERFACE, 0, 0, 2, 0xFF, 0x52, 0x01, 1,
         7, USB_DT_ENDPOINT, 0x01, USB_ENDPOINT_XFER_BULK, 64, 0, 0,
         7, USB_DT_ENDPOINT, 0x82, USB_ENDPOINT_XFER_BULK, 64, 0, 0,
         9, USB_DT_INTERFACE, 0, 0, 2, 0xFF, 0x52, 0x01, 1,
         7, USB_DT_ENDPOINT, 0x01, USB_ENDPOINT_XFER_BULK, 0x00, 0x02, 0,
         7, USB_DT_ENDPOINT, 0x82, USB_ENDPOINT_XFER_BULK, 0x00, 0x02, 0]
      ∧ descriptorsBlob.length = 62
      ∧ stringsBlob =
        [FUNCTIONFS_STRINGS_MAGIC, 0, 0, 0,   32, 0, 0, 0,   1, 0, 0, 0,   1, 0, 0, 0,
         0x09, 0x04,
         81, 68, 66, 32, 73, 110, 116, 101, 114, 102, 97, 99, 101,
         0]
      ∧ stringsBlob.length = 32
      ∧ "QDB Interface".toList.map Char.toNat
        = [81, 68, 66, 32, 73, 110, 116, 101, 114, 102, 97, 99, 101]
      ∧ FUNCTIONFS_DESCRIPTORS_MAGIC = 1 ∧ FUNCTIONFS_STRINGS_MAGIC = 2
      ∧ USB_DT_INTERFACE = 4 ∧ USB_DT_ENDPOINT = 5 ∧ USB_ENDPOINT_XFER_BULK = 2
      ∧ 1 ||| USB_DIR_OUT = 0x01 ∧ 2 ||| USB_DIR_IN = 0x82 := by
  decide

/-! ## The gadget facade: read queue -/

theorem readData_nil (self : UsbGadget) (data : List Nat) (maxSize : Int)
    (hempty : self.reads = []) : self.readData data maxSize = some (-1, self, data) := by
  simp [UsbGadget.readData, hempty]

theorem readData_cons (self : UsbGadget) (data : List Nat) (maxSize : Int)
    (read : QByteArray) (rest : List QByteArray) (hqueue : self.reads = read :: rest)
    (hfits : (read.length : Int) ≤ maxSize) :
    self.readData data maxSize =
      some ((read.length : Int), { self with reads := rest },
        read ++ data.drop read.length) := by
  simp [UsbGadget.readData, hqueue, hfits]

theorem reads_dataReadAll (self : UsbGadget) (chunks : List QByteArray) :
    (self.dataReadAll chunks).reads = self.reads ++ chunks := by
  induction chunks generalizing self with
  | nil => simp [UsbGadget.dataReadAll]
  | cons chunk rest ih =>
    have h := ih (self.dataRead chunk).2
    simp only [UsbGadget.dataReadAll, List.foldl_cons] at h ⊢
    rw [h]
    simp [UsbGadget.dataRead]

/-- Reading as many times as the queue is long delivers the queue, chunk by chunk. -/
theorem readChunks_queue (maxSize : Int) (queue : List QByteArray) :
    ∀ (self : UsbGadget) (data : List Nat), self.reads = queue →
      (∀ c ∈ queue, (c.length : Int) ≤ maxSize) →
      self.readChunks queue.length data maxSize = queue := by
  induction queue with
  | nil =>
    intro self data _ _
    rfl
  | cons read rest ih =>
    intro self data hqueue hfits
    have hhead : (read.length : Int) ≤ maxSize := hfits read (List.mem_cons_self _ _)
    simp only [List.length_cons, UsbGadget.readChunks,
      readData_cons self data maxSize read rest hqueue hhead]
    have hnonneg : ¬ ((read.length : Int) < 0) := by omega
    simp only [hnonneg, if_false, Int.toNat_ofNat, List.take_left']
    rw [ih { self with reads := rest } _ rfl
      (fun c hc => hfits c (List.mem_cons_of_mem _ hc))]

/-! ## Serial numbers -/

theorem nextIdAfter_eq_mod (bits n : Nat) : nextIdAfter bits n = n % 2 ^ bits := by
  induction n with
  | zero => simp [nextIdAfter]
  | succ n ih =>
    simp only [nextIdAfter, newServletId, ih]
    exact Nat.mod_add_mod n (2 ^ bits) 1

theorem servletId_eq_mod (bits n : Nat) (hn : 0 < n) : servletId bits n = n % 2 ^ bits := by
  obtain ⟨m, rfl⟩ : ∃ m, n = m + 1 := ⟨n - 1, by omega⟩
  simp only [servletId, Nat.add_sub_cancel, newServletId, nextIdAfter_eq_mod]
  exact Nat.mod_add_mod m (2 ^ bits) 1

/-! ## The gadget facade, serial numbers and servlet ids: claims -/

/-- C11: for every read queue and every buffer capacity `maxSize`, `readData` returns `-1`
and leaves queue and buffer unchanged when the queue is empty; when the chunk at the head has
size at most `maxSize` it returns exactly that size, writes exactly that chunk's bytes, in
order, to the start of the buffer (the rest of the buffer, and its length when it holds
`maxSize` bytes, are unchanged) and removes only that chunk.  `dataRead` enqueues at the tail,
so after any chunks are enqueued, reading once per queued chunk delivers the queued chunks
intact and in the order they were enqueued. -/
theorem readData_delivers_chunks (self : UsbGadget) (data : List Nat) (maxSize : Int) :
    (self.reads = [] → self.readData data maxSize = some (-1, self, data))
    ∧ (∀ read rest, self.reads = read :: rest → (read.length : Int) ≤ maxSize →
        self.readData data maxSize =
            some ((read.length : Int), { self with reads := rest },
              read ++ data.drop read.length)
          ∧ (read ++ data.drop read.length).take read.length = read
          ∧ (read ++ data.drop read.length).drop read.length = data.drop read.length
          ∧ (maxSize ≤ (data.length : Int) →
              (read ++ data.drop read.length).length = data.length))
    ∧ (∀ chunk, (self.dataRead chunk).2.reads = self.reads ++ [chunk])
    ∧ (∀ chunks, (∀ c ∈ self.reads ++ chunks, (c.length : Int) ≤ maxSize) →
        (self.dataReadAll chunks).readChunks (self.reads ++ chunks).length data maxSize
          = self.reads ++ chunks) := by
  refine ⟨readData_nil self data maxSize, ?_, fun _ => rfl, ?_⟩
  · intro read rest hqueue hfits
    refine ⟨readData_cons self data maxSize read rest hqueue hfits, List.take_left' rfl,
      List.drop_left' rfl, ?_⟩
    intro hcapacity
    rw [List.length_append, List.length_drop]
    omega
  · intro chunks hfit
    exact readChunks_queue maxSize (self.reads ++ chunks) (self.dataReadAll chunks) data
      (reads_dataReadAll self chunks) hfit

/-- C11, exercised on a four-byte buffer: an empty queue; a queue headed by a two-byte chunk;
and two chunks enqueued by `dataRead` behind a queued one, then read back. -/
theorem readData_delivers_chunks_witness :
    (sampleOpenGadget []).readData [9, 9, 9, 9] 4 = some (-1, sampleOpenGadget [], [9, 9, 9, 9])
    ∧ (sampleOpenGadget [[1, 2], [3]]).readData [9, 9, 9, 9] 4 =
        some (2, sampleOpenGadget [[3]], [1, 2, 9, 9])
    ∧ ((sampleOpenGadget [[1, 2]]).dataReadAll [[3], [4, 5, 6]]).readChunks 3 [9, 9, 9, 9] 4 =
        [[1, 2], [3], [4, 5, 6]] :=
  ⟨(readData_delivers_chunks (sampleOpenGadget []) [9, 9, 9, 9] 4).1 rfl,
   ((readData_delivers_chunks (sampleOpenGadget [[1, 2], [3]]) [9, 9, 9, 9] 4).2.1
      [1, 2] [[3]] rfl (by decide)).1,
   (readData_delivers_chunks (sampleOpenGadget [[1, 2]]) [9, 9, 9, 9] 4).2.2.2
      [[3], [4, 5, 6]] (by decide)⟩

/-- C13, as the code behaves, for `ServletId` an unsigned type of `bits` bits: as long as
fewer than `2 ^ bits` servlets have been created, the `n`-th servlet gets id `n`, so ids are
positive, the first is 1, each is the previous one plus 1 and a later servlet has a strictly
greater id; servlet number `2 ^ bits` gets id 0. -/
theorem servletId_below_wrap (bits : Nat) :
    (∀ n, 0 < n → n < 2 ^ bits → servletId bits n = n ∧ 0 < servletId bits n)
    ∧ (1 < 2 ^ bits → servletId bits 1 = 1)
    ∧ (∀ n, 0 < n → n + 1 < 2 ^ bits → servletId bits (n + 1) = servletId bits n + 1)
    ∧ (∀ i j, 0 < i → i < j → j < 2 ^ bits → servletId bits i < servletId bits j)
    ∧ servletId bits (2 ^ bits) = 0 := by
  have hid : ∀ n, 0 < n → n < 2 ^ bits → servletId bits n = n := by
    intro n hn hlt
    rw [servletId_eq_mod bits n hn, Nat.mod_eq_of_lt hlt]
  refine ⟨?_, ?_, ?_, ?_, ?_⟩
  · intro n hn hlt
    rw [hid n hn hlt]
    exact ⟨rfl, hn⟩
  · intro h
    exact hid 1 (by omega) h
  · intro n hn hlt
    rw [hid (n + 1) (by omega) hlt, hid n hn (by omega)]
  · intro i j hi hij hj
    rw [hid i hi (by omega), hid j (by omega) hj]
    exact hij
  · rw [servletId_eq_mod bits (2 ^ bits) (Nat.pow_pos (by omega)), Nat.mod_self]

/-- C13, exercised with a 32-bit `ServletId`: the first, fifth and sixth servlets. -/
theorem servletId_below_wrap_witness :
    servletId 32 1 = 1
    ∧ servletId 32 5 = 5
    ∧ servletId 32 6 = servletId 32 5 + 1
    ∧ servletId 32 5 < servletId 32 6 :=
  ⟨(servletId_below_wrap 32).2.1 (by decide),
   ((servletId_below_wrap 32).1 5 (by decide) (by decide)).1,
   (servletId_below_wrap 32).2.2.1 5 (by decide) (by decide),
   (servletId_below_wrap 32).2.2.2.1 5 6 (by decide) (by decide) (by decide)⟩

/-- C13 as stated fails: with a 32-bit `ServletId`, servlet number `2 ^ 32` gets id 0, which
is not positive and not greater than the id `2 ^ 32 - 1` of the servlet created before it. -/
theorem servletId_counterexample :
    servletId 32 (2 ^ 32) = 0
      ∧ servletId 32 (2 ^ 32 - 1) = 4294967295
      ∧ ¬ (0 < servletId 32 (2 ^ 32))
      ∧ ¬ (servletId 32 (2 ^ 32 - 1) < servletId 32 (2 ^ 32)) := by
  have h0 : servletId 32 (2 ^ 32) = 0 := by
    rw [servletId_eq_mod 32 (2 ^ 32) (by decide)]
    decide
  have h1 : servletId 32 (2 ^ 32 - 1) = 4294967295 := by
    rw [servletId_eq_mod 32 (2 ^ 32 - 1) (by decide)]
    decide
  refine ⟨h0, h1, ?_, ?_⟩
  · rw [h0]
    decide
  · rw [h0, h1]
    decide

/-- C14: what `~UsbGadget` does on a gadget whose reader and writer were both started.  It
terminates the read thread and waits for it, terminates the write thread and waits for the
read thread again, then closes `ep2`, `ep1`, `ep0` in that order: the write thread is never
waited for and the read thread is waited for twice. -/
theorem destructor_waits_for_read_thread_twice (reads : List QByteArray) :
    sampleOpenGadget reads = UsbGadget.mk true true reads
    ∧ (sampleOpenGadget reads).destructor =
        some [GadgetEffect.terminate GadgetThread.readThread,
              GadgetEffect.wait GadgetThread.readThread,
              GadgetEffect.terminate GadgetThread.writeThread,
              GadgetEffect.wait GadgetThread.readThread,
              GadgetEffect.close GadgetEndpoint.inEndpoint,
              GadgetEffect.close GadgetEndpoint.outEndpoint,
              GadgetEffect.close GadgetEndpoint.controlEndpoint]
    ∧ (sampleOpenGadget reads).destructor.map
        (List.count (GadgetEffect.wait GadgetThread.writeThread)) = some 0
    ∧ (sampleOpenGadget reads).destructor.map
        (List.count (GadgetEffect.wait GadgetThread.readThread)) = some 2 :=
  ⟨rfl, rfl, rfl, rfl⟩

end Qdb
